import Mathlib

/-! # Controller service of the onmetal CSI driver

A shallow embedding of `pkg/service/controller.go`: the volume size validator,
the construction of the protocol-visible volume descriptor, the
`CreateVolume` / `DeleteVolume` calls against the resource-store client, and
the `ControllerPublishVolume` / `ControllerUnpublishVolume` calls. The node
call `NodePublishVolume`, whose source is not at hand, is modelled from the
specification.

Conventions of the embedding:

* Go's `int64` values are integers; the one multiplication that could leave the
  range is wrapped with `wrapInt64`.
* Go maps with string keys are association lists read with `mapIndex`, which
  yields the empty string for a missing key like Go's index expression.
* The resource-store client is a record of state-passing functions; every call
  a service method issues is also recorded in a call log.
* Console output (`fmt.Println`) and `time.Sleep` have no effect on results and
  are left out.
-/

namespace OnmetalCsi

/-! ## Integers, strings and maps -/

/-- Two's-complement wrap of an integer into the range of Go's `int64`. -/
def wrapInt64 (x : Int) : Int := (x + 2 ^ 63) % 2 ^ 64 - 2 ^ 63

/-- The integer is a value of Go's `int64`. -/
def isInt64 (x : Int) : Prop := -(2 ^ 63) ≤ x ∧ x < 2 ^ 63

instance (x : Int) : Decidable (isInt64 x) := by
  unfold isInt64
  exact inferInstance

/-- Go's `strconv.FormatInt(n, 10)`: the decimal numeral of a signed integer. -/
def FormatInt (n : Int) : String :=
  match n with
  | Int.ofNat m => Nat.repr m
  | Int.negSucc m => "-" ++ Nat.repr (m + 1)

/-- Go's index expression `m[k]` on a `map[string]string`. -/
def mapIndex (m : List (String × String)) (k : String) : String :=
  (m.lookup k).getD ""

/-- Go's `strings.Contains` on character lists. -/
def containsChars (sub : List Char) : List Char → Bool
  | [] => sub.isEmpty
  | c :: cs => sub.isPrefixOf (c :: cs) || containsChars sub cs

/-- Go's `strings.Contains(s, sub)`. -/
def stringsContains (s sub : String) : Bool := containsChars sub.data s.data

/-! ## Time rendering -/

/-- A fixed-offset time zone: abbreviation and seconds east of UTC. -/
structure Location where
  name : String
  offset : Int
  deriving DecidableEq, Repr

/-- The UTC location. -/
def UTC : Location := ⟨"UTC", 0⟩

/-- A calendar date and clock time. -/
structure Civil where
  year : Int
  month : Int
  day : Int
  hour : Int
  minute : Int
  second : Int
  deriving DecidableEq, Repr

/-- Proleptic Gregorian date of a count of seconds since the Unix epoch. -/
def civilOfUnix (sec : Int) : Civil :=
  let days := sec / 86400
  let rem := sec % 86400
  let z := days + 719468
  let era := z / 146097
  let doe := z - era * 146097
  let yoe := (doe - doe / 1460 + doe / 36524 - doe / 146096) / 365
  let doy := doe - (365 * yoe + yoe / 4 - yoe / 100)
  let mp := (5 * doy + 2) / 153
  let d := doy - (153 * mp + 2) / 5 + 1
  let m := if mp < 10 then mp + 3 else mp - 9
  let y := if m ≤ 2 then yoe + era * 400 + 1 else yoe + era * 400
  ⟨y, m, d, rem / 3600, rem % 3600 / 60, rem % 60⟩

/-- Decimal numeral of a natural number, left-padded with zeros to a width. -/
def padZero (width : Nat) (n : Nat) : String :=
  let s := Nat.repr n
  String.mk (List.replicate (width - s.length) '0') ++ s

/-- Go's `time.Unix(sec, 0).String()` in a fixed-offset location, that is the
layout `2006-01-02 15:04:05 -0700 MST` (years 0 to 9999). -/
def timeUnixString (loc : Location) (sec : Int) : String :=
  let c := civilOfUnix (sec + loc.offset)
  let sign := if loc.offset < 0 then "-" else "+"
  let off := loc.offset.natAbs
  padZero 4 c.year.toNat ++ "-" ++ padZero 2 c.month.toNat ++ "-" ++ padZero 2 c.day.toNat
    ++ " " ++ padZero 2 c.hour.toNat ++ ":" ++ padZero 2 c.minute.toNat ++ ":"
    ++ padZero 2 c.second.toNat
    ++ " " ++ sign ++ padZero 2 (off / 3600) ++ padZero 2 (off % 3600 / 60) ++ " " ++ loc.name

/-- Go's `strconv.Itoa(time.Unix(sec, 0).Year())` in a fixed-offset location. -/
def yearString (loc : Location) (sec : Int) : String :=
  FormatInt (civilOfUnix (sec + loc.offset)).year

/-! ## Protocol and store data -/

/-- The gRPC status codes (`google.golang.org/grpc/codes`). -/
inductive Code
  | OK | Canceled | Unknown | InvalidArgument | DeadlineExceeded | NotFound
  | AlreadyExists | PermissionDenied | ResourceExhausted | FailedPrecondition
  | Aborted | OutOfRange | Unimplemented | Internal | Unavailable | DataLoss
  | Unauthenticated
  deriving DecidableEq, Repr

/-- A gRPC status error as built by `status.Errorf(code, format, args...)`:
the code with the format string and the rendered arguments it was given. -/
structure Status where
  code : Code
  format : String
  args : List String
  deriving DecidableEq, Repr

/-- Go's `status.Errorf`. -/
def Errorf (c : Code) (format : String) (args : List String) : Status := ⟨c, format, args⟩

/-- An error returned by the resource-store client: its `Error()` text and
whether `apierrors.IsNotFound` holds of it. -/
structure ApiError where
  message : String
  notFound : Bool
  deriving DecidableEq, Repr

/-- Go's `apierrors.IsNotFound(err)` on a possibly nil error. -/
def IsNotFound : Option ApiError → Bool
  | none => false
  | some e => e.notFound

/-- The capacity range of a request (`csi.CapacityRange`). -/
structure CapacityRange where
  RequiredBytes : Int
  LimitBytes : Int
  deriving DecidableEq, Repr

/-- Nil-safe getter `(*CapacityRange).GetRequiredBytes`. -/
def GetRequiredBytes : Option CapacityRange → Int
  | none => 0
  | some c => c.RequiredBytes

/-- Nil-safe getter `(*CapacityRange).GetLimitBytes`. -/
def GetLimitBytes : Option CapacityRange → Int
  | none => 0
  | some c => c.LimitBytes

/-- One topology entry (`csi.Topology`). -/
structure Topology where
  Segments : List (String × String)
  deriving DecidableEq, Repr

/-- Accessibility requirements of a request (`csi.TopologyRequirement`). -/
structure TopologyRequirement where
  Requisite : List Topology
  Preferred : List Topology
  deriving DecidableEq, Repr

/-- Source of pre-populated content (`csi.VolumeContentSource`). -/
inductive VolumeContentSource
  | Snapshot (snapshotId : String)
  | Volume (volumeId : String)
  deriving DecidableEq, Repr

/-- Access modes of a volume capability (`csi.VolumeCapability_AccessMode_Mode`). -/
inductive AccessMode
  | UNKNOWN | SINGLE_NODE_WRITER | SINGLE_NODE_READER_ONLY | MULTI_NODE_READER_ONLY
  | MULTI_NODE_SINGLE_WRITER | MULTI_NODE_MULTI_WRITER
  deriving DecidableEq, Repr

/-- The request of `CreateVolume` (`csi.CreateVolumeRequest`). -/
structure CreateVolumeRequest where
  Name : String
  CapacityRange : Option CapacityRange
  VolumeCapabilities : List AccessMode
  Parameters : List (String × String)
  VolumeContentSource : Option VolumeContentSource
  AccessibilityRequirements : Option TopologyRequirement
  deriving DecidableEq, Repr

/-- The protocol-visible volume descriptor (`csi.Volume`). -/
structure CsiVolume where
  VolumeId : String
  CapacityBytes : Int
  VolumeContext : List (String × String)
  ContentSource : Option VolumeContentSource
  deriving DecidableEq, Repr

/-- The response of `CreateVolume` (`csi.CreateVolumeResponse`). -/
structure CreateVolumeResponse where
  Volume : Option CsiVolume
  deriving DecidableEq, Repr

/-- The request of `DeleteVolume` (`csi.DeleteVolumeRequest`). -/
structure DeleteVolumeRequest where
  VolumeId : String
  deriving DecidableEq, Repr

/-- The response of `DeleteVolume` (`csi.DeleteVolumeResponse`), which is empty. -/
structure DeleteVolumeResponse where
  deriving DecidableEq, Repr

/-- The service's own record of a volume. -/
structure Volume where
  ID : String
  Name : String
  StoragePool : String
  CreatedAt : Int
  Size : Int
  FsType : String
  ProvisionType : String
  deriving DecidableEq, Repr

/-- The claim resource (`storagev1alpha1.VolumeClaim`): type and object
metadata, the spec, and the phase of its status. A quantity is kept as the
string handed to `resource.MustParse`. -/
structure VolumeClaim where
  APIVersion : String
  Kind : String
  Namespace : String
  Name : String
  Resources : List (String × String)
  Selector : Option (List (String × String))
  StorageClassRef : String
  Phase : String
  deriving DecidableEq, Repr

/-- The zero value `&storagev1alpha1.VolumeClaim{}`. -/
def VolumeClaim.zero : VolumeClaim := ⟨"", "", "", "", [], none, "", ""⟩

/-- The phase constant `storagev1alpha1.VolumeClaimBound`. -/
def VolumeClaimBound : String := "Bound"

/-- The text of `storagev1alpha1.GroupVersion.String()`. -/
def GroupVersionString : String := "storage.api.onmetal.de/v1alpha1"

/-- The field owner under which claims are applied. -/
def volumeClaimFieldOwner : String := "storage.onmetal.de/volumeclaim"

/-- A namespaced object key (`types.NamespacedName`). -/
structure NamespacedName where
  Namespace : String
  Name : String
  deriving DecidableEq, Repr

/-- Patch types of the store client. -/
inductive PatchType
  | Apply | Merge
  deriving DecidableEq, Repr

/-- A call issued to the resource-store client. -/
inductive ClientCall
  | Patch (obj : VolumeClaim) (patch : PatchType) (fieldOwner : String)
  | Get (key : NamespacedName)
  | Delete (obj : VolumeClaim)
  deriving DecidableEq, Repr

/-- The resource-store client over a store state `σ`. `Patch` and `Get` return
the error (if any), the object as the call left it, and the next state. -/
structure Client (σ : Type) where
  Patch : VolumeClaim → PatchType → String → σ → Option ApiError × VolumeClaim × σ
  Get : NamespacedName → VolumeClaim → σ → Option ApiError × VolumeClaim × σ
  Delete : VolumeClaim → σ → Option ApiError × σ

/-- The controller service: its store client and the location in which the
process renders times. -/
structure service (σ : Type) where
  parentClient : Client σ
  loc : Location

/-- What a service call returns, with the store state it leaves and the client
calls it issued, in order. -/
structure CallResult (ρ σ : Type) where
  resp : ρ
  err : Option Status
  state : σ
  calls : List ClientCall

/-! ## The controller code -/

/-- Source `validateVolumeSize`: byte size, quantity string and error. -/
def validateVolumeSize (caprange : Option CapacityRange) : Int × String × Option String :=
  let requiredVolSize := GetRequiredBytes caprange
  let allowedMaxVolSize := GetLimitBytes caprange
  if requiredVolSize < 0 ∨ allowedMaxVolSize < 0 then
    (0, "", some "not valid volume size")
  else
    let bytesofKiB : Int := 1024
    let kiBytesofGiB : Int := 1024 * 1024
    let bytesofGiB : Int := kiBytesofGiB * bytesofKiB
    let MinVolumeSize : Int := 1 * bytesofGiB
    let requiredVolSize := if requiredVolSize = 0 then MinVolumeSize else requiredVolSize
    let sizeinGB := Int.tdiv requiredVolSize bytesofGiB
    let sizeinGB := if sizeinGB = 0 then 1 else sizeinGB
    let sizeinByte := wrapInt64 (sizeinGB * bytesofGiB)
    if allowedMaxVolSize ≠ 0 ∧ sizeinByte > allowedMaxVolSize then
      (0, "", some "volume size is out of allowed limit")
    else
      let strsize := FormatInt sizeinGB ++ "Gi"
      (sizeinByte, strsize, none)

/-- Source `getCsiVolume`: the descriptor built from the service's record. -/
def getCsiVolume {σ : Type} (s : service σ) (vol : Volume) (req : CreateVolumeRequest) :
    CsiVolume :=
  let volCtx := [
    ("volume_id", vol.ID),
    ("volume_name", vol.Name),
    ("storage_pool", vol.StoragePool),
    ("creation_time", timeUnixString s.loc vol.CreatedAt),
    ("fstype", vol.FsType),
    ("provision_type", vol.ProvisionType)]
  { VolumeId := vol.ID
    CapacityBytes := vol.Size
    VolumeContext := volCtx
    ContentSource := req.VolumeContentSource }

/-- Source `CreateVolume`. -/
def CreateVolume {σ : Type} (s : service σ) (req : CreateVolumeRequest) (st : σ) :
    CallResult CreateVolumeResponse σ :=
  let capacity := req.CapacityRange
  match validateVolumeSize capacity with
  | (_, _, some err) => ⟨⟨none⟩, some (Errorf Code.Internal err []), st, []⟩
  | (volBytes, sVolSize, none) =>
    let params := req.Parameters
    let fstype := mapIndex params "fstype"
    let storage_class := mapIndex params "storage_class_name"
    let vol : Volume :=
      { ID := req.Name
        Name := req.Name
        StoragePool := mapIndex req.Parameters "storage_pool"
        CreatedAt := 0
        Size := volBytes
        FsType := fstype
        ProvisionType := "" }
    let volResp := getCsiVolume s vol req
    let csiVolResp : CreateVolumeResponse := ⟨some volResp⟩
    let volumeClaim : VolumeClaim :=
      { APIVersion := GroupVersionString
        Kind := "VolumeClaim"
        Namespace := "onmetal-csi"
        Name := req.Name ++ "-claim"
        Resources := [("storage", sVolSize)]
        Selector := some []
        StorageClassRef := storage_class
        Phase := "" }
    let call1 := ClientCall.Patch volumeClaim PatchType.Apply volumeClaimFieldOwner
    match s.parentClient.Patch volumeClaim PatchType.Apply volumeClaimFieldOwner st with
    | (some err, _, st1) =>
      ⟨csiVolResp, some (Errorf Code.Internal err.message []), st1, [call1]⟩
    | (none, volumeClaim, st1) =>
      if volumeClaim.Phase ≠ VolumeClaimBound then
        let key : NamespacedName := ⟨volumeClaim.Namespace, volumeClaim.Name⟩
        let call2 := ClientCall.Get key
        match s.parentClient.Get key VolumeClaim.zero st1 with
        | (err, vc, st2) =>
          match err with
          | some e =>
            if ¬ IsNotFound (some e) then
              ⟨csiVolResp, some (Errorf Code.Internal e.message []), st2, [call1, call2]⟩
            else if vc.Phase ≠ VolumeClaimBound then
              ⟨csiVolResp, some (Errorf Code.Internal "unable to process request for volume: "
                [req.Name, "claim pahse", vc.Phase]), st2, [call1, call2]⟩
            else
              ⟨csiVolResp, none, st2, [call1, call2]⟩
          | none =>
            if vc.Phase ≠ VolumeClaimBound then
              ⟨csiVolResp, some (Errorf Code.Internal "unable to process request for volume: "
                [req.Name, "claim pahse", vc.Phase]), st2, [call1, call2]⟩
            else
              ⟨csiVolResp, none, st2, [call1, call2]⟩
      else
        ⟨csiVolResp, none, st1, [call1]⟩

/-- Source `DeleteVolume`. The pointer `vc` is never nil, so the guarded
delete always runs once the lookup has succeeded. -/
def DeleteVolume {σ : Type} (s : service σ) (req : DeleteVolumeRequest) (st : σ) :
    CallResult DeleteVolumeResponse σ :=
  let deleteResponce : DeleteVolumeResponse := {}
  let volumeClaimKey : NamespacedName := ⟨"onmetal-csi", req.VolumeId ++ "-claim"⟩
  let call1 := ClientCall.Get volumeClaimKey
  match s.parentClient.Get volumeClaimKey VolumeClaim.zero st with
  | (err, vc, st1) =>
    match err with
    | some e =>
      if ¬ IsNotFound (some e) then
        ⟨deleteResponce, some (Errorf Code.Internal e.message []), st1, [call1]⟩
      else
        ⟨deleteResponce, none, st1, [call1]⟩
    | none =>
      match s.parentClient.Delete vc st1 with
      | (some e, st2) =>
        ⟨deleteResponce, some (Errorf Code.Internal e.message []), st2, [call1, ClientCall.Delete vc]⟩
      | (none, st2) =>
        ⟨deleteResponce, none, st2, [call1, ClientCall.Delete vc]⟩

/-- The request of `ControllerPublishVolume` (`csi.ControllerPublishVolumeRequest`). -/
structure ControllerPublishVolumeRequest where
  VolumeId : String
  NodeId : String
  VolumeCapability : Option AccessMode
  Readonly : Bool
  VolumeContext : List (String × String)
  deriving DecidableEq, Repr

/-- The response of `ControllerPublishVolume`. -/
structure ControllerPublishVolumeResponse where
  PublishContext : List (String × String)
  deriving DecidableEq, Repr

/-- The request of `ControllerUnpublishVolume` (`csi.ControllerUnpublishVolumeRequest`). -/
structure ControllerUnpublishVolumeRequest where
  VolumeId : String
  NodeId : String
  deriving DecidableEq, Repr

/-- The response of `ControllerUnpublishVolume`, which is empty. -/
structure ControllerUnpublishVolumeResponse where
  deriving DecidableEq, Repr

/-- Source `ControllerPublishVolume`: the publish context is built from the
request alone; the store client is not consulted. -/
def ControllerPublishVolume {σ : Type} (_s : service σ) (req : ControllerPublishVolumeRequest)
    (st : σ) : CallResult ControllerPublishVolumeResponse σ :=
  let volCtx : List (String × String) := []
  let volCtx := volCtx ++ [("node_id", req.NodeId)]
  let volCtx := volCtx ++ [("volume_id", req.VolumeId)]
  ⟨⟨volCtx⟩, none, st, []⟩

/-- Source `ControllerUnpublishVolume`: an empty response and no error; the
store client is not consulted. -/
def ControllerUnpublishVolume {σ : Type} (_s : service σ)
    (_req : ControllerUnpublishVolumeRequest) (st : σ) :
    CallResult ControllerUnpublishVolumeResponse σ :=
  let controleUnPublishResponce : ControllerUnpublishVolumeResponse := {}
  ⟨controleUnPublishResponce, none, st, []⟩

/-! ## Vocabulary of the statements -/

/-- The spec's rounding: a byte count rounded up to a whole number of GiB. -/
def specRoundUpGiB (R : Int) : Int := (R + (2 ^ 30 - 1)) / 2 ^ 30 * 2 ^ 30

/-- The service's record of the volume a request asks for. -/
def requestedVolume (req : CreateVolumeRequest) : Volume :=
  { ID := req.Name
    Name := req.Name
    StoragePool := mapIndex req.Parameters "storage_pool"
    CreatedAt := 0
    Size := (validateVolumeSize req.CapacityRange).1
    FsType := mapIndex req.Parameters "fstype"
    ProvisionType := "" }

/-- The claim `CreateVolume` hands to the store for a request. -/
def appliedClaim (req : CreateVolumeRequest) : VolumeClaim :=
  { APIVersion := GroupVersionString
    Kind := "VolumeClaim"
    Namespace := "onmetal-csi"
    Name := req.Name ++ "-claim"
    Resources := [("storage", (validateVolumeSize req.CapacityRange).2.1)]
    Selector := some []
    StorageClassRef := mapIndex req.Parameters "storage_class_name"
    Phase := "" }

/-- The apply of the request's claim succeeds and the claim is seen Bound,
either on the applied object or on the single re-read that follows. -/
def boundAfterApply {σ : Type} (s : service σ) (req : CreateVolumeRequest) (st : σ) : Prop :=
  let p := s.parentClient.Patch (appliedClaim req) PatchType.Apply volumeClaimFieldOwner st
  p.1 = none ∧
    (p.2.1.Phase = VolumeClaimBound ∨
      (let g := s.parentClient.Get ⟨p.2.1.Namespace, p.2.1.Name⟩ VolumeClaim.zero p.2.2
       (g.1 = none ∨ IsNotFound g.1 = true) ∧ g.2.1.Phase = VolumeClaimBound))

instance {σ : Type} (s : service σ) (req : CreateVolumeRequest) (st : σ) :
    Decidable (boundAfterApply s req st) := by
  unfold boundAfterApply
  dsimp only
  exact inferInstance

/-- A store client that accepts every call and reports every claim Bound. -/
def boundClient : Client Unit :=
  { Patch := fun obj _ _ st => (none, { obj with Phase := VolumeClaimBound }, st)
    Get := fun key obj st =>
      (none, { obj with Namespace := key.Namespace, Name := key.Name, Phase := VolumeClaimBound }, st)
    Delete := fun _ st => (none, st) }

/-- A service over `boundClient` rendering times in UTC. -/
def boundService : service Unit := ⟨boundClient, UTC⟩

/-- The topology segment key `topologyKey` of the driver package. Its
declaration is not among the sources at hand; the controller test pairs the
name with this literal. -/
def topologyKey : String := "topology.csi.onmetal.de/zone"

/-- The request of the controller test: 5 GiB named `volume` in pool `volumepool`. -/
def testRequest : CreateVolumeRequest :=
  { Name := "volume"
    CapacityRange := some ⟨5 * 1024 * 1024 * 1024, 0⟩
    VolumeCapabilities := [AccessMode.SINGLE_NODE_WRITER]
    Parameters := [("type", "slow"), ("fstype", "ext4")]
    VolumeContentSource := none
    AccessibilityRequirements :=
      some ⟨[⟨[(topologyKey, "volumepool")]⟩], [⟨[(topologyKey, "volumepool")]⟩]⟩ }

/-- A request that differs from the test's only in its capacity range. -/
def requestWithCapacity (cr : Option CapacityRange) : CreateVolumeRequest :=
  { testRequest with CapacityRange := cr }

/-- What the store answers to the apply of the request's claim: error, the
claim as the apply left it, next state. -/
def applyResult {σ : Type} (s : service σ) (req : CreateVolumeRequest) (st : σ) :
    Option ApiError × VolumeClaim × σ :=
  s.parentClient.Patch (appliedClaim req) PatchType.Apply volumeClaimFieldOwner st

/-- The key under which the applied claim is read again. -/
def rereadKey {σ : Type} (s : service σ) (req : CreateVolumeRequest) (st : σ) : NamespacedName :=
  ⟨(applyResult s req st).2.1.Namespace, (applyResult s req st).2.1.Name⟩

/-- What the store answers to the re-read that follows the apply. -/
def rereadResult {σ : Type} (s : service σ) (req : CreateVolumeRequest) (st : σ) :
    Option ApiError × VolumeClaim × σ :=
  s.parentClient.Get (rereadKey s req st) VolumeClaim.zero (applyResult s req st).2.2

/-- The error `CreateVolume` returns for a volume name once the size is valid,
read off the answers of the store: to the apply (error, claim) and to the
re-read (error, claim). -/
def outcomeOf (name : String) (pe : Option ApiError) (pc : VolumeClaim)
    (ge : Option ApiError) (gc : VolumeClaim) : Option Status :=
  match pe with
  | some e => some (Errorf Code.Internal e.message [])
  | none =>
    if pc.Phase = VolumeClaimBound then none
    else if ge ≠ none ∧ IsNotFound ge = false then
      some (Errorf Code.Internal ((ge.map ApiError.message).getD "") [])
    else if gc.Phase = VolumeClaimBound then none
    else some (Errorf Code.Internal "unable to process request for volume: "
      [name, "claim pahse", gc.Phase])

/-- Two store states answer the apply of the request's claim, and the re-read
after it, in the same way. -/
def sameResponses {σ : Type} (s : service σ) (req : CreateVolumeRequest) (st1 st2 : σ) : Prop :=
  (applyResult s req st1).1 = (applyResult s req st2).1 ∧
  (applyResult s req st1).2.1 = (applyResult s req st2).2.1 ∧
  (rereadResult s req st1).1 = (rereadResult s req st2).1 ∧
  (rereadResult s req st1).2.1 = (rereadResult s req st2).2.1

instance {σ : Type} (s : service σ) (req : CreateVolumeRequest) (st1 st2 : σ) :
    Decidable (sameResponses s req st1 st2) := by
  unfold sameResponses
  exact inferInstance

/-- The request of the controller test that names the pool `foo`, which does
not exist. -/
def wrongPoolRequest : CreateVolumeRequest :=
  { Name := "volume-wrong-pool"
    CapacityRange := some ⟨5 * 1024 * 1024 * 1024, 0⟩
    VolumeCapabilities := [AccessMode.SINGLE_NODE_WRITER]
    Parameters := [("type", "slow"), ("fstype", "ext4")]
    VolumeContentSource := none
    AccessibilityRequirements :=
      some ⟨[⟨[(topologyKey, "foo")]⟩], [⟨[(topologyKey, "foo")]⟩]⟩ }

/-! ## A store kept as a map from namespaced names to claims -/

/-- The namespaced name under which a claim is filed: its own metadata. -/
def VolumeClaim.key (c : VolumeClaim) : NamespacedName := ⟨c.Namespace, c.Name⟩

/-- The claim filed under a key, if any. The store is the list of the claims it
holds, each filed under its own namespaced name. -/
def storeLookup (st : List VolumeClaim) (key : NamespacedName) : Option VolumeClaim :=
  st.find? (fun c => decide (c.key = key))

/-- The store without the claim filed under a key. -/
def storeErase (st : List VolumeClaim) (key : NamespacedName) : List VolumeClaim :=
  st.filter (fun c => !decide (c.key = key))

/-- The error of the store for an object that is not there. -/
def notFoundError : ApiError := ⟨"not found", true⟩

/-- The client of a map store: an apply files the claim under its key, keeping
the phase of a claim already there; a lookup or a delete of an absent key
answers not-found. -/
def mapClient : Client (List VolumeClaim) :=
  { Patch := fun obj _ _ st =>
      let stored : VolumeClaim :=
        match storeLookup st obj.key with
        | some old => { obj with Phase := old.Phase }
        | none => obj
      (none, stored, stored :: storeErase st obj.key)
    Get := fun key obj st =>
      match storeLookup st key with
      | some c => (none, c, st)
      | none => (some notFoundError, obj, st)
    Delete := fun obj st =>
      match storeLookup st obj.key with
      | some _ => (none, storeErase st obj.key)
      | none => (some notFoundError, st) }

/-- A service over the map store rendering times in UTC. -/
def mapService : service (List VolumeClaim) := ⟨mapClient, UTC⟩

/-- A Bound claim as the store holds it for the volume `volume-to-delete`. -/
def storedClaim : VolumeClaim :=
  { APIVersion := GroupVersionString
    Kind := "VolumeClaim"
    Namespace := "onmetal-csi"
    Name := "volume-to-delete-claim"
    Resources := [("storage", "5Gi")]
    Selector := some []
    StorageClassRef := ""
    Phase := VolumeClaimBound }

/-- A store client whose apply leaves the claim Pending and whose lookup shows
it Bound. -/
def lateBoundClient : Client Unit :=
  { Patch := fun obj _ _ st => (none, { obj with Phase := "Pending" }, st)
    Get := fun key obj st =>
      (none, { obj with Namespace := key.Namespace, Name := key.Name, Phase := VolumeClaimBound }, st)
    Delete := fun _ st => (none, st) }

/-- A service over `lateBoundClient` rendering times in UTC. -/
def lateBoundService : service Unit := ⟨lateBoundClient, UTC⟩

/-- A map store that already holds the claim of the test's request, Bound. -/
def boundTestStore : List VolumeClaim :=
  [{ appliedClaim testRequest with Phase := VolumeClaimBound }]

/-- The store the test's request leaves when it is made on `boundTestStore`. -/
def repeatStore : List VolumeClaim :=
  (CreateVolume mapService testRequest boundTestStore).state

/-- The call is an apply (a `Patch`) of a claim. -/
def ClientCall.isPatch : ClientCall → Bool
  | ClientCall.Patch _ _ _ => true
  | _ => false

/-! ## A store of machines with their declared volume lists -/

/-- An attachment entry of a machine's declared volume list. -/
structure MachineVolume where
  Name : String
  VolumeRef : String
  Phase : String
  Device : Option String
  deriving DecidableEq, Repr

/-- A compute node resource with its declared volume list. -/
structure Machine where
  Name : String
  Volumes : List MachineVolume
  deriving DecidableEq, Repr

/-- A client that finds nothing and changes nothing, over any store state. -/
def inertClient (σ : Type) : Client σ :=
  { Patch := fun obj _ _ st => (none, obj, st)
    Get := fun _ obj st => (some notFoundError, obj, st)
    Delete := fun _ st => (some notFoundError, st) }

/-- The machine of the controller test once the volume is attached. -/
def testMachine : Machine :=
  ⟨"node", [⟨"volume-attachment", "volume", "Bound", some "oda"⟩]⟩

/-- The publish request of the controller test. -/
def testPublishRequest : ControllerPublishVolumeRequest :=
  { VolumeId := "volume", NodeId := "node", VolumeCapability := none, Readonly := false
    VolumeContext := [] }

/-! ## The node mount state machine -/

/-- A volume capability of a node request: access mode, and the filesystem type
and mount flags of its mount access type. -/
structure VolumeCapability where
  AccessMode : AccessMode
  FsType : String
  MountFlags : List String
  deriving DecidableEq, Repr

/-- The request of `NodePublishVolume` (`csi.NodePublishVolumeRequest`). -/
structure NodePublishVolumeRequest where
  VolumeId : String
  StagingTargetPath : String
  TargetPath : String
  VolumeCapability : Option VolumeCapability
  PublishContext : List (String × String)
  Readonly : Bool
  deriving DecidableEq, Repr

/-- A call issued to the mount operations or to the OS operations. -/
inductive NodeCall
  | IsLikelyNotMountPoint (path : String)
  | IsNotExist (err : String)
  | MkdirAll (path : String) (perm : Nat)
  | Mount (source : String) (target : String) (fstype : String) (options : List String)
  deriving DecidableEq, Repr

/-- The injected mount operations and OS operations over a node state `σ`.
An error is its text. -/
structure NodeOps (σ : Type) where
  IsLikelyNotMountPoint : String → σ → (Bool × Option String) × σ
  IsNotExist : String → Bool
  MkdirAll : String → Nat → σ → Option String × σ
  Mount : String → String → String → List String → σ → Option String × σ

/-- What a node call returns: the error if any, the node state it leaves, and
the mount and OS calls it issued, in order. -/
structure NodeResult (σ : Type) where
  err : Option Status
  state : σ
  calls : List NodeCall

/-- Modelled from the spec: `NodePublishVolume` of the node mount state machine,
whose source (`pkg/driver/node.go`) is not among the sources at hand; only its
test is. The volume id, the staging path, the target path and the capability
are validated in that order, each with its own invalid-argument message. Then
the target is checked: a mount point already there is success; a check that
fails because the target does not exist creates the directory (mode 0750) and
bind-mounts the staging path on the target with the options bind, the mode flag
and the capability's mount flags; any other check failure, and a failing
directory creation or mount, is an internal condition. -/
def NodePublishVolume {σ : Type} (ops : NodeOps σ) (req : NodePublishVolumeRequest) (st : σ) :
    NodeResult σ :=
  if req.VolumeId = "" then
    ⟨some (Errorf Code.InvalidArgument "Volume ID is not set" []), st, []⟩
  else if req.StagingTargetPath = "" then
    ⟨some (Errorf Code.InvalidArgument "StagingTargetPath is not set" []), st, []⟩
  else if req.TargetPath = "" then
    ⟨some (Errorf Code.InvalidArgument "TargetMountPath is not set" []), st, []⟩
  else
    match req.VolumeCapability with
    | none => ⟨some (Errorf Code.InvalidArgument "No volume capabilities provided" []), st, []⟩
    | some cap =>
      let options := "bind" :: (if req.Readonly then "ro" else "rw") :: cap.MountFlags
      let check := NodeCall.IsLikelyNotMountPoint req.TargetPath
      let mount := NodeCall.Mount req.StagingTargetPath req.TargetPath cap.FsType options
      match ops.IsLikelyNotMountPoint req.TargetPath st with
      | ((notMnt, none), st1) =>
        if notMnt then
          match ops.Mount req.StagingTargetPath req.TargetPath cap.FsType options st1 with
          | (some e, st2) =>
            ⟨some (Errorf Code.Internal "Failed to mount device %s at %s: %v"
              [req.StagingTargetPath, req.TargetPath, e]), st2, [check, mount]⟩
          | (none, st2) => ⟨none, st2, [check, mount]⟩
        else ⟨none, st1, [check]⟩
      | ((_, some e), st1) =>
        if ops.IsNotExist e then
          match ops.MkdirAll req.TargetPath 0o750 st1 with
          | (some e2, st2) =>
            ⟨some (Errorf Code.Internal "Failed to create mount directory %s: %v"
              [req.TargetPath, e2]), st2,
              [check, NodeCall.IsNotExist e, NodeCall.MkdirAll req.TargetPath 0o750]⟩
          | (none, st2) =>
            match ops.Mount req.StagingTargetPath req.TargetPath cap.FsType options st2 with
            | (some e3, st3) =>
              ⟨some (Errorf Code.Internal "Failed to mount device %s at %s: %v"
                [req.StagingTargetPath, req.TargetPath, e3]), st3,
                [check, NodeCall.IsNotExist e, NodeCall.MkdirAll req.TargetPath 0o750, mount]⟩
            | (none, st3) =>
              ⟨none, st3,
                [check, NodeCall.IsNotExist e, NodeCall.MkdirAll req.TargetPath 0o750, mount]⟩
        else
          ⟨some (Errorf Code.Internal "Mount directory %s does not exist: %v"
            [req.TargetPath, e]), st1, [check, NodeCall.IsNotExist e]⟩

/-- Mount and OS operations that find every target mounted already. -/
def mountedOps : NodeOps Unit :=
  { IsLikelyNotMountPoint := fun _ st => ((false, none), st)
    IsNotExist := fun _ => false
    MkdirAll := fun _ _ st => (none, st)
    Mount := fun _ _ _ _ st => (none, st) }

/-- The publish request of the node test. -/
def testNodePublishRequest : NodePublishVolumeRequest :=
  { VolumeId := "test-volume-id"
    StagingTargetPath := "/target/path/"
    TargetPath := "/stage/path/"
    VolumeCapability := some ⟨AccessMode.SINGLE_NODE_WRITER, "ext4", []⟩
    PublishContext := [("device_name", "/dev/sdb")]
    Readonly := false }

/-! ## Reading decimal numerals -/

/-- The value of a decimal digit character. -/
def digitValue (c : Char) : Nat := c.toNat - 48

/-- The number a string of decimal digits denotes, most significant digit
first. -/
def decimalValue (cs : List Char) : Nat :=
  cs.foldl (fun acc c => 10 * acc + digitValue c) 0

/-! ## Lemmas on the size validator and on `CreateVolume` -/

/-- Wrapping leaves a value of the int64 range unchanged. -/
theorem wrapInt64_of_isInt64 (x : Int) (h : isInt64 x) : wrapInt64 x = x := by
  unfold isInt64 at h
  unfold wrapInt64
  rw [Int.emod_eq_of_lt (by omega) (by omega)]
  omega

/-- Truncating and flooring division by 2^30 agree on non-negative integers. -/
theorem tdiv_GiB (R : Int) (h : 0 ≤ R) : Int.tdiv R 1073741824 = R / 1073741824 :=
  Int.tdiv_eq_ediv h (by norm_num)

/-- The GiB count is at least 1 and its byte size is at most max(R, 2^30). -/
theorem units_bounds (R : Int) :
    1 ≤ max 1 (R / 1073741824) ∧ max 1 (R / 1073741824) * 1073741824 ≤ max R 1073741824 := by
  constructor
  · exact le_max_left _ _
  · rcases le_total 1 (R / 1073741824) with h | h
    · rw [max_eq_right h]
      have := Int.ediv_mul_le R (b := 1073741824) (by norm_num)
      exact le_trans this (le_max_left _ _)
    · rw [max_eq_left h]
      exact le_trans (by norm_num) (le_max_right _ _)

/-- The validator reads a capacity range only through its two getters. -/
theorem validateVolumeSize_getters (cr : Option CapacityRange) :
    validateVolumeSize cr =
      validateVolumeSize (some ⟨GetRequiredBytes cr, GetLimitBytes cr⟩) := by
  cases cr <;> rfl

/-- Closed form of the validator on a non-negative int64 request and a
non-negative limit: the multiplication never wraps. -/
theorem validateVolumeSize_eq (R L : Int) (hR : 0 ≤ R) (hR2 : R < 2 ^ 63) (hL : 0 ≤ L) :
    validateVolumeSize (some ⟨R, L⟩) =
      if L ≠ 0 ∧ max 1 (R / 2 ^ 30) * 2 ^ 30 > L then
        (0, "", some "volume size is out of allowed limit")
      else
        (max 1 (R / 2 ^ 30) * 2 ^ 30, FormatInt (max 1 (R / 2 ^ 30)) ++ "Gi", none) := by
  have hb := units_bounds R
  norm_num at hR2 ⊢
  have hk : (if (if R = 0 then (1073741824 : Int) else R).tdiv 1073741824 = 0 then (1 : Int)
      else (if R = 0 then (1073741824 : Int) else R).tdiv 1073741824) = max 1 (R / 1073741824) := by
    by_cases h0 : R = 0
    · subst h0; decide
    · rw [if_neg h0, tdiv_GiB R hR]
      have hq : 0 ≤ R / 1073741824 := Int.ediv_nonneg hR (by norm_num)
      by_cases hz : R / 1073741824 = 0
      · rw [if_pos hz, hz]; rfl
      · rw [if_neg hz, max_eq_right (by omega)]
  have hw : wrapInt64 (max 1 (R / 1073741824) * 1073741824) = max 1 (R / 1073741824) * 1073741824 := by
    apply wrapInt64_of_isInt64
    unfold isInt64
    have : max R 1073741824 < 2 ^ 63 := max_lt (by norm_num; omega) (by norm_num)
    constructor <;> omega
  unfold validateVolumeSize
  simp only [GetRequiredBytes, GetLimitBytes]
  rw [if_neg (by omega)]
  have hc : (1024 * 1024 * 1024 : Int) = 1073741824 := by norm_num
  simp only [hc, one_mul, hk, hw, ne_eq, gt_iff_lt]

/-- A request whose size is rejected returns the validator's error as an internal
status, an empty response, and touches the store in no way. -/
theorem CreateVolume_rejected {σ : Type} (s : service σ) (req : CreateVolumeRequest) (st : σ)
    (e : String) (h : (validateVolumeSize req.CapacityRange).2.2 = some e) :
    CreateVolume s req st = ⟨⟨none⟩, some (Errorf Code.Internal e []), st, []⟩ := by
  unfold CreateVolume
  dsimp only
  rcases hv : validateVolumeSize req.CapacityRange with ⟨a, b, c⟩
  rw [hv] at h
  simp only at h
  subst h
  rfl

/-- Once the size is valid the response volume is the descriptor of the request,
whatever the store answers. -/
theorem CreateVolume_resp {σ : Type} (s : service σ) (req : CreateVolumeRequest) (st : σ)
    (h : (validateVolumeSize req.CapacityRange).2.2 = none) :
    (CreateVolume s req st).resp = ⟨some (getCsiVolume s (requestedVolume req) req)⟩ := by
  unfold CreateVolume requestedVolume
  dsimp only
  rcases hv : validateVolumeSize req.CapacityRange with ⟨a, b, c⟩
  rw [hv] at h
  simp only at h
  subst h
  simp only
  repeat' split
  all_goals rfl

/-- Once the size is valid the first store call is the apply of the request's claim. -/
theorem CreateVolume_calls_head {σ : Type} (s : service σ) (req : CreateVolumeRequest) (st : σ)
    (h : (validateVolumeSize req.CapacityRange).2.2 = none) :
    (CreateVolume s req st).calls.head? =
      some (ClientCall.Patch (appliedClaim req) PatchType.Apply volumeClaimFieldOwner) := by
  unfold CreateVolume appliedClaim
  dsimp only
  rcases hv : validateVolumeSize req.CapacityRange with ⟨a, b, c⟩
  rw [hv] at h
  simp only at h
  subst h
  simp only
  repeat' split
  all_goals rfl

/-- A valid request whose claim is applied and seen Bound returns no error. -/
theorem CreateVolume_err_of_bound {σ : Type} (s : service σ) (req : CreateVolumeRequest) (st : σ)
    (h : (validateVolumeSize req.CapacityRange).2.2 = none) (hb : boundAfterApply s req st) :
    (CreateVolume s req st).err = none := by
  unfold boundAfterApply appliedClaim at hb
  unfold CreateVolume
  dsimp only at hb ⊢
  rcases hv : validateVolumeSize req.CapacityRange with ⟨a, b, c⟩
  rw [hv] at h hb
  simp only at h hb
  subst h
  simp only
  rcases hp : s.parentClient.Patch
      { APIVersion := GroupVersionString, Kind := "VolumeClaim", Namespace := "onmetal-csi",
        Name := req.Name ++ "-claim", Resources := [("storage", b)], Selector := some [],
        StorageClassRef := mapIndex req.Parameters "storage_class_name", Phase := "" }
      PatchType.Apply volumeClaimFieldOwner st with ⟨pe, c1, s1⟩
  rw [hp] at hb
  simp only at hb
  obtain ⟨hpe, hq⟩ := hb
  subst hpe
  simp only
  by_cases hne : c1.Phase = VolumeClaimBound
  · simp [hne]
  · rcases hq with hq | hq
    · exact absurd hq hne
    · rcases hg : s.parentClient.Get ⟨c1.Namespace, c1.Name⟩ VolumeClaim.zero s1 with ⟨ge, gv, gs⟩
      rw [hg] at hq
      simp only at hq
      obtain ⟨hg1, hg2⟩ := hq
      cases ge with
      | none => simp [hne, hg, hg2]
      | some e =>
        rcases hg1 with hg1 | hg1
        · simp at hg1
        · simp [hne, hg, hg1, hg2]

/-- A call that returns no error passed size validation. -/
theorem CreateVolume_valid_of_success {σ : Type} (s : service σ) (req : CreateVolumeRequest)
    (st : σ) (h : (CreateVolume s req st).err = none) :
    (validateVolumeSize req.CapacityRange).2.2 = none := by
  cases hv : (validateVolumeSize req.CapacityRange).2.2 with
  | none => rfl
  | some e =>
    rw [CreateVolume_rejected s req st e hv] at h
    simp at h

/-- A valid request issues the apply, followed by at most one re-read. -/
theorem CreateVolume_calls_shape {σ : Type} (s : service σ) (req : CreateVolumeRequest) (st : σ)
    (h : (validateVolumeSize req.CapacityRange).2.2 = none) :
    (CreateVolume s req st).calls =
        [ClientCall.Patch (appliedClaim req) PatchType.Apply volumeClaimFieldOwner] ∨
      ∃ key, (CreateVolume s req st).calls =
        [ClientCall.Patch (appliedClaim req) PatchType.Apply volumeClaimFieldOwner,
          ClientCall.Get key] := by
  unfold CreateVolume appliedClaim
  dsimp only
  rcases hv : validateVolumeSize req.CapacityRange with ⟨a, b, c⟩
  rw [hv] at h
  simp only at h
  subst h
  simp only
  repeat' split
  all_goals first
    | exact Or.inl rfl
    | exact Or.inr ⟨_, rfl⟩

/-- The first store call of a delete is the lookup of the claim key. -/
theorem DeleteVolume_calls_head {σ : Type} (s : service σ) (req : DeleteVolumeRequest) (st : σ) :
    (DeleteVolume s req st).calls.head? =
      some (ClientCall.Get ⟨"onmetal-csi", req.VolumeId ++ "-claim"⟩) := by
  unfold DeleteVolume
  dsimp only
  repeat' split
  all_goals rfl

/-! ## The claims -/

/-- C1, as stated, fails: for a required size of 2^30 + 1 bytes and no limit the
validator returns 2^30 bytes, which is below the request and is not the size
rounded up to whole GiB (2 * 2^30). -/
theorem C1_round_up_counterexample :
    (validateVolumeSize (some ⟨2 ^ 30 + 1, 0⟩)).1 = 2 ^ 30 ∧
    specRoundUpGiB (2 ^ 30 + 1) = 2 * 2 ^ 30 ∧
    (validateVolumeSize (some ⟨2 ^ 30 + 1, 0⟩)).1 ≠ specRoundUpGiB (2 ^ 30 + 1) ∧
    (validateVolumeSize (some ⟨2 ^ 30 + 1, 0⟩)).1 < 2 ^ 30 + 1 := by decide

/-- C1, amended: for every required size R > 0 (an int64) and limit 0 the
validator succeeds and returns max(1, floor(R / 2^30)) * 2^30 bytes with the
matching quantity string; that size is R rounded up to whole GiB, and is at
least R, exactly when R is at most 2^30 or a multiple of 2^30, and it never
exceeds max(R, 2^30). -/
theorem C1_validateVolumeSize_rounds_down (R : Int) (h0 : 0 < R) (h1 : R < 2 ^ 63) :
    validateVolumeSize (some ⟨R, 0⟩) =
      (max 1 (R / 2 ^ 30) * 2 ^ 30, FormatInt (max 1 (R / 2 ^ 30)) ++ "Gi", none) ∧
    ((validateVolumeSize (some ⟨R, 0⟩)).1 = specRoundUpGiB R ↔ (R ≤ 2 ^ 30 ∨ (2 ^ 30 : Int) ∣ R)) ∧
    (R ≤ (validateVolumeSize (some ⟨R, 0⟩)).1 ↔ (R ≤ 2 ^ 30 ∨ (2 ^ 30 : Int) ∣ R)) ∧
    (validateVolumeSize (some ⟨R, 0⟩)).1 ≤ max R (2 ^ 30) := by
  have h := validateVolumeSize_eq R 0 (le_of_lt h0) h1 (le_refl 0)
  rw [if_neg (by simp)] at h
  rw [h]
  refine ⟨rfl, ?_, ?_, ?_⟩
  all_goals (simp only [specRoundUpGiB]; norm_num; omega)

/-- The amended C1 at a required size of 1.5 GiB. -/
theorem C1_validateVolumeSize_rounds_down_witness :
    validateVolumeSize (some ⟨3 * 2 ^ 29, 0⟩) =
      (max 1 (3 * 2 ^ 29 / 2 ^ 30) * 2 ^ 30, FormatInt (max 1 (3 * 2 ^ 29 / 2 ^ 30)) ++ "Gi", none) ∧
    ((validateVolumeSize (some ⟨3 * 2 ^ 29, 0⟩)).1 = specRoundUpGiB (3 * 2 ^ 29) ↔
      ((3 * 2 ^ 29 : Int) ≤ 2 ^ 30 ∨ (2 ^ 30 : Int) ∣ 3 * 2 ^ 29)) ∧
    ((3 * 2 ^ 29 : Int) ≤ (validateVolumeSize (some ⟨3 * 2 ^ 29, 0⟩)).1 ↔
      ((3 * 2 ^ 29 : Int) ≤ 2 ^ 30 ∨ (2 ^ 30 : Int) ∣ 3 * 2 ^ 29)) ∧
    (validateVolumeSize (some ⟨3 * 2 ^ 29, 0⟩)).1 ≤ max (3 * 2 ^ 29) (2 ^ 30) :=
  C1_validateVolumeSize_rounds_down (3 * 2 ^ 29) (by decide) (by decide)

/-- C2: when the required size is 0 (also with no capacity range at all) and the
limit is 0 or at least 2^30, the validator returns exactly 2^30 bytes with the
quantity string "1Gi", and the response volume of `CreateVolume` carries
CapacityBytes = 2^30 whatever the store client does. -/
theorem C2_zero_required_is_one_GiB (cr : Option CapacityRange)
    (hR : GetRequiredBytes cr = 0)
    (hL : GetLimitBytes cr = 0 ∨ 2 ^ 30 ≤ GetLimitBytes cr) :
    validateVolumeSize cr = (2 ^ 30, "1Gi", none) ∧
    ∀ (σ : Type) (s : service σ) (req : CreateVolumeRequest) (st : σ),
      req.CapacityRange = cr →
      (CreateVolume s req st).resp.Volume.map CsiVolume.CapacityBytes = some (2 ^ 30) := by
  have hv : validateVolumeSize cr = (2 ^ 30, "1Gi", none) := by
    have hL0 : 0 ≤ GetLimitBytes cr := by
      rcases hL with h | h
      · rw [h]
      · exact le_trans (by norm_num) h
    have h := validateVolumeSize_eq 0 (GetLimitBytes cr) (le_refl 0) (by norm_num) hL0
    rw [validateVolumeSize_getters cr, hR, h, if_neg]
    · decide
    · norm_num at hL ⊢
      omega
  refine ⟨hv, ?_⟩
  intro σ s req st hcr
  subst hcr
  rw [CreateVolume_resp s req st (by rw [hv])]
  simp only [Option.map, getCsiVolume, requestedVolume, hv]

/-- C2 at the absent capacity range. -/
theorem C2_zero_required_is_one_GiB_witness :
    validateVolumeSize none = (2 ^ 30, "1Gi", none) ∧
    ∀ (σ : Type) (s : service σ) (req : CreateVolumeRequest) (st : σ),
      req.CapacityRange = none →
      (CreateVolume s req st).resp.Volume.map CsiVolume.CapacityBytes = some (2 ^ 30) :=
  C2_zero_required_is_one_GiB none (by decide) (Or.inl (by decide))

/-- C3, as stated, fails: with required size 2^31 - 1 and limit 2^30 the size
rounded up to whole GiB (2^31) exceeds the limit, yet `CreateVolume` succeeds
against a store that binds the claim, and it applies the claim. -/
theorem C3_round_up_limit_counterexample :
    specRoundUpGiB (2 ^ 31 - 1) > 2 ^ 30 ∧
    (CreateVolume boundService (requestWithCapacity (some ⟨2 ^ 31 - 1, 2 ^ 30⟩)) ()).err = none ∧
    (CreateVolume boundService (requestWithCapacity (some ⟨2 ^ 31 - 1, 2 ^ 30⟩)) ()).calls =
      [ClientCall.Patch (appliedClaim (requestWithCapacity (some ⟨2 ^ 31 - 1, 2 ^ 30⟩)))
        PatchType.Apply volumeClaimFieldOwner] := by
  decide

/-- C3, amended: for every required size R ≥ 0 (an int64) and limit L > 0 such
that the size the validator computes, max(1, floor(R / 2^30)) * 2^30, is greater
than L, `CreateVolume` fails with the error "volume size is out of allowed
limit", issues no call to the store (no claim is applied) and leaves the store
state as it was. -/
theorem C3_computed_size_above_limit (R L : Int) (hR : 0 ≤ R) (hR2 : R < 2 ^ 63)
    (hL : 0 < L) (hgt : max 1 (R / 2 ^ 30) * 2 ^ 30 > L)
    {σ : Type} (s : service σ) (req : CreateVolumeRequest) (st : σ)
    (hcr : req.CapacityRange = some ⟨R, L⟩) :
    CreateVolume s req st =
      ⟨⟨none⟩, some (Errorf Code.Internal "volume size is out of allowed limit" []), st, []⟩ := by
  apply CreateVolume_rejected
  rw [hcr, validateVolumeSize_eq R L hR hR2 (le_of_lt hL), if_pos ⟨ne_of_gt hL, hgt⟩]

/-- The amended C3 at required size 2 GiB and limit 1 GiB. -/
theorem C3_computed_size_above_limit_witness :
    CreateVolume boundService (requestWithCapacity (some ⟨2 ^ 31, 2 ^ 30⟩)) () =
      ⟨⟨none⟩, some (Errorf Code.Internal "volume size is out of allowed limit" []), (), []⟩ :=
  C3_computed_size_above_limit (2 ^ 31) (2 ^ 30) (by decide) (by decide) (by decide) (by decide)
    boundService (requestWithCapacity (some ⟨2 ^ 31, 2 ^ 30⟩)) () rfl

/-- C4, as stated, fails: a request with required bytes -1 is rejected by size
validation, and the error `CreateVolume` returns carries the code internal, not
invalid-argument. -/
theorem C4_invalid_argument_counterexample :
    (validateVolumeSize (some ⟨-1, 0⟩)).2.2 = some "not valid volume size" ∧
    (CreateVolume boundService (requestWithCapacity (some ⟨-1, 0⟩)) ()).err =
      some ⟨Code.Internal, "not valid volume size", []⟩ ∧
    (CreateVolume boundService (requestWithCapacity (some ⟨-1, 0⟩)) ()).err.map Status.code ≠
      some Code.InvalidArgument := by
  decide

/-- C4, amended: whenever size validation rejects the capacity range with an
error e, the error `CreateVolume` returns carries the status code internal (and
the validator's text e), and no call reaches the store. -/
theorem C4_rejected_size_is_internal {σ : Type} (s : service σ) (req : CreateVolumeRequest)
    (st : σ) (e : String) (hrej : (validateVolumeSize req.CapacityRange).2.2 = some e) :
    (CreateVolume s req st).err = some ⟨Code.Internal, e, []⟩ ∧
    (CreateVolume s req st).err.map Status.code = some Code.Internal ∧
    (CreateVolume s req st).calls = [] := by
  rw [CreateVolume_rejected s req st e hrej]
  exact ⟨rfl, rfl, rfl⟩

/-- The amended C4 at a negative limit. -/
theorem C4_rejected_size_is_internal_witness :
    (CreateVolume boundService (requestWithCapacity (some ⟨5, -7⟩)) ()).err =
      some ⟨Code.Internal, "not valid volume size", []⟩ ∧
    (CreateVolume boundService (requestWithCapacity (some ⟨5, -7⟩)) ()).err.map Status.code =
      some Code.Internal ∧
    (CreateVolume boundService (requestWithCapacity (some ⟨5, -7⟩)) ()).calls = [] :=
  C4_rejected_size_is_internal boundService (requestWithCapacity (some ⟨5, -7⟩)) ()
    "not valid volume size" (by decide)

/-- C5: for every k ≥ 1 (with k * 2^30 an int64), a request whose required size
is exactly k * 2^30 bytes with no limit, whose claim apply succeeds and whose
claim is seen Bound, returns without error a volume with VolumeId equal to the
request name and CapacityBytes exactly k * 2^30. -/
theorem C5_whole_GiB_request (k : Int) (hk : 1 ≤ k) (hk2 : k * 2 ^ 30 < 2 ^ 63)
    {σ : Type} (s : service σ) (req : CreateVolumeRequest) (st : σ)
    (hcr : req.CapacityRange = some ⟨k * 2 ^ 30, 0⟩) (hb : boundAfterApply s req st) :
    (CreateVolume s req st).err = none ∧
    ∃ v, (CreateVolume s req st).resp.Volume = some v ∧ v.VolumeId = req.Name ∧
      v.CapacityBytes = k * 2 ^ 30 := by
  have hv : validateVolumeSize req.CapacityRange =
      (k * 2 ^ 30, FormatInt k ++ "Gi", none) := by
    rw [hcr, validateVolumeSize_eq (k * 2 ^ 30) 0 (by positivity) hk2 (le_refl 0),
      if_neg (by simp)]
    have hq : k * 2 ^ 30 / 2 ^ 30 = k := Int.mul_ediv_cancel k (by norm_num)
    rw [hq, max_eq_right hk]
  have hvalid : (validateVolumeSize req.CapacityRange).2.2 = none := by rw [hv]
  refine ⟨CreateVolume_err_of_bound s req st hvalid hb, ?_⟩
  refine ⟨getCsiVolume s (requestedVolume req) req, ?_, rfl, ?_⟩
  · rw [CreateVolume_resp s req st hvalid]
  · simp only [getCsiVolume, requestedVolume, hv]

/-- C5 at the request of the controller test (k = 5) against a binding store. -/
theorem C5_whole_GiB_request_witness :
    (CreateVolume boundService testRequest ()).err = none ∧
    ∃ v, (CreateVolume boundService testRequest ()).resp.Volume = some v ∧
      v.VolumeId = testRequest.Name ∧ v.CapacityBytes = 5 * 2 ^ 30 :=
  C5_whole_GiB_request 5 (by decide) (by decide) boundService testRequest () (by decide)
    (by decide)

/-- C6: for every successful `CreateVolume` request with name N and parameter
fstype = F, the returned volume has VolumeId = N and a VolumeContext holding
volume_id = N, volume_name = N and fstype = F, together with keys for the pool
(`storage_pool`), `creation_time` and `provision_type`, and no other key. -/
theorem C6_descriptor_context {σ : Type} (s : service σ) (req : CreateVolumeRequest) (st : σ)
    (F : String) (hF : req.Parameters.lookup "fstype" = some F)
    (hok : (CreateVolume s req st).err = none) :
    ∃ v, (CreateVolume s req st).resp.Volume = some v ∧
      v.VolumeId = req.Name ∧
      v.VolumeContext.lookup "volume_id" = some req.Name ∧
      v.VolumeContext.lookup "volume_name" = some req.Name ∧
      v.VolumeContext.lookup "fstype" = some F ∧
      (v.VolumeContext.lookup "storage_pool").isSome = true ∧
      (v.VolumeContext.lookup "creation_time").isSome = true ∧
      (v.VolumeContext.lookup "provision_type").isSome = true ∧
      v.VolumeContext.map Prod.fst =
        ["volume_id", "volume_name", "storage_pool", "creation_time", "fstype",
          "provision_type"] := by
  have hvalid := CreateVolume_valid_of_success s req st hok
  refine ⟨getCsiVolume s (requestedVolume req) req, ?_, rfl, rfl, rfl, ?_, rfl, rfl, rfl, rfl⟩
  · rw [CreateVolume_resp s req st hvalid]
  · have hfs : (requestedVolume req).FsType = F := by
      simp only [requestedVolume, mapIndex, hF, Option.getD]
    rw [← hfs]
    rfl

/-- C6 at the request of the controller test against a binding store. -/
theorem C6_descriptor_context_witness :
    ∃ v, (CreateVolume boundService testRequest ()).resp.Volume = some v ∧
      v.VolumeId = testRequest.Name ∧
      v.VolumeContext.lookup "volume_id" = some testRequest.Name ∧
      v.VolumeContext.lookup "volume_name" = some testRequest.Name ∧
      v.VolumeContext.lookup "fstype" = some "ext4" ∧
      (v.VolumeContext.lookup "storage_pool").isSome = true ∧
      (v.VolumeContext.lookup "creation_time").isSome = true ∧
      (v.VolumeContext.lookup "provision_type").isSome = true ∧
      v.VolumeContext.map Prod.fst =
        ["volume_id", "volume_name", "storage_pool", "creation_time", "fstype",
          "provision_type"] :=
  C6_descriptor_context boundService testRequest () "ext4" (by decide) (by decide)

/-- C7, the code at the test's request: whatever the store holds, the request
whose first requisite segment names the pool `volumepool` under the recognised
topology key gets a VolumeContext with no `volume_pool` key at all, and its
`storage_pool` entry is the empty string (the absent `storage_pool` parameter),
not the requested pool. -/
theorem C7_topology_pool_not_reported {σ : Type} (s : service σ) (st : σ) :
    testRequest.AccessibilityRequirements.map
        (fun t => t.Requisite.map (fun r => r.Segments.lookup topologyKey)) =
      some [some "volumepool"] ∧
    (CreateVolume s testRequest st).resp.Volume.map
        (fun v => v.VolumeContext.lookup "volume_pool") = some none ∧
    (CreateVolume s testRequest st).resp.Volume.map
        (fun v => v.VolumeContext.lookup "storage_pool") = some (some "") := by
  have hvalid : (validateVolumeSize testRequest.CapacityRange).2.2 = none := by decide
  rw [CreateVolume_resp s testRequest st hvalid]
  exact ⟨by decide, rfl, rfl⟩

/-- C8, the code at the test's request: whatever the store does, and whenever
the call is made, the `creation_time` entry rendered in UTC is the Unix epoch
"1970-01-01 00:00:00 +0000 UTC"; for a call at Unix time 1700000000 the year
of the call is "2023", which that entry does not contain. -/
theorem C8_creation_time_is_epoch {σ : Type} (c : Client σ) (st : σ) :
    (CreateVolume ⟨c, UTC⟩ testRequest st).resp.Volume.map
        (fun v => v.VolumeContext.lookup "creation_time") =
      some (some "1970-01-01 00:00:00 +0000 UTC") ∧
    yearString UTC 1700000000 = "2023" ∧
    stringsContains "1970-01-01 00:00:00 +0000 UTC" (yearString UTC 1700000000) = false := by
  have hvalid : (validateVolumeSize testRequest.CapacityRange).2.2 = none := by decide
  have hctx : (getCsiVolume ⟨c, UTC⟩ (requestedVolume testRequest) testRequest).VolumeContext.lookup
      "creation_time" = some (timeUnixString UTC 0) := rfl
  have hepoch : timeUnixString UTC 0 = "1970-01-01 00:00:00 +0000 UTC" := by decide
  rw [CreateVolume_resp ⟨c, UTC⟩ testRequest st hvalid]
  refine ⟨?_, by decide, by decide⟩
  simp only [Option.map, hctx, hepoch]

/-- C9: the claim name is a function of the volume name, and create and delete
agree on it: any claim that `CreateVolume` for the name N applies lives in the
namespace "onmetal-csi" under the name N ++ "-claim", and that namespaced key is
the one `DeleteVolume` looks up first when given the VolumeId returned by that
`CreateVolume`, against any store. -/
theorem C9_create_delete_same_key {σ : Type} (s : service σ) (req : CreateVolumeRequest)
    (st : σ) (c : VolumeClaim) (p : PatchType) (owner : String)
    (happlied : ClientCall.Patch c p owner ∈ (CreateVolume s req st).calls) :
    c.Namespace = "onmetal-csi" ∧ c.Name = req.Name ++ "-claim" ∧
    ∃ v, (CreateVolume s req st).resp.Volume = some v ∧
      ∀ (τ : Type) (s2 : service τ) (st2 : τ),
        (DeleteVolume s2 ⟨v.VolumeId⟩ st2).calls.head? =
          some (ClientCall.Get ⟨c.Namespace, c.Name⟩) := by
  have hvalid : (validateVolumeSize req.CapacityRange).2.2 = none := by
    cases hv : (validateVolumeSize req.CapacityRange).2.2 with
    | none => rfl
    | some e =>
      rw [CreateVolume_rejected s req st e hv] at happlied
      simp at happlied
  have hc : c = appliedClaim req := by
    rcases CreateVolume_calls_shape s req st hvalid with h | ⟨key, h⟩
    · rw [h] at happlied
      simp only [List.mem_singleton, ClientCall.Patch.injEq] at happlied
      exact happlied.1
    · rw [h] at happlied
      simp only [List.mem_cons, ClientCall.Patch.injEq, List.mem_singleton, reduceCtorEq,
        or_false, List.not_mem_nil] at happlied
      exact happlied.1
  subst hc
  refine ⟨rfl, rfl, getCsiVolume s (requestedVolume req) req, ?_, ?_⟩
  · rw [CreateVolume_resp s req st hvalid]
  · intro τ s2 st2
    rw [DeleteVolume_calls_head]
    rfl

/-- C9 at the request of the controller test against a binding store. -/
theorem C9_create_delete_same_key_witness :
    (appliedClaim testRequest).Namespace = "onmetal-csi" ∧
    (appliedClaim testRequest).Name = testRequest.Name ++ "-claim" ∧
    ∃ v, (CreateVolume boundService testRequest ()).resp.Volume = some v ∧
      ∀ (τ : Type) (s2 : service τ) (st2 : τ),
        (DeleteVolume s2 ⟨v.VolumeId⟩ st2).calls.head? =
          some (ClientCall.Get ⟨(appliedClaim testRequest).Namespace,
            (appliedClaim testRequest).Name⟩) :=
  C9_create_delete_same_key boundService testRequest () (appliedClaim testRequest)
    PatchType.Apply volumeClaimFieldOwner (by decide)

/-- C10: for every volume id and every behaviour of the store client,
`DeleteVolume` returns an error if and only if the claim lookup fails with an
error other than not-found, or the lookup succeeds and the delete that follows
fails; every error it returns has the status code internal; and a not-found
lookup returns success with the lookup as the only call issued (no delete). -/
theorem C10_delete_error_cases {σ : Type} (s : service σ) (req : DeleteVolumeRequest) (st : σ) :
    ((DeleteVolume s req st).err ≠ none ↔
      (((s.parentClient.Get ⟨"onmetal-csi", req.VolumeId ++ "-claim"⟩ VolumeClaim.zero st).1 ≠ none ∧
          IsNotFound
            (s.parentClient.Get ⟨"onmetal-csi", req.VolumeId ++ "-claim"⟩ VolumeClaim.zero st).1
            = false) ∨
        ((s.parentClient.Get ⟨"onmetal-csi", req.VolumeId ++ "-claim"⟩ VolumeClaim.zero st).1 = none ∧
          (s.parentClient.Delete
            (s.parentClient.Get ⟨"onmetal-csi", req.VolumeId ++ "-claim"⟩ VolumeClaim.zero st).2.1
            (s.parentClient.Get ⟨"onmetal-csi", req.VolumeId ++ "-claim"⟩ VolumeClaim.zero st).2.2).1
            ≠ none))) ∧
    (∀ e, (DeleteVolume s req st).err = some e → e.code = Code.Internal) ∧
    (IsNotFound
        (s.parentClient.Get ⟨"onmetal-csi", req.VolumeId ++ "-claim"⟩ VolumeClaim.zero st).1 = true →
      (DeleteVolume s req st).err = none ∧
      (DeleteVolume s req st).calls =
        [ClientCall.Get ⟨"onmetal-csi", req.VolumeId ++ "-claim"⟩]) := by
  unfold DeleteVolume
  dsimp only
  rcases hg : s.parentClient.Get ⟨"onmetal-csi", req.VolumeId ++ "-claim"⟩ VolumeClaim.zero st
    with ⟨ge, vc, st1⟩
  cases ge with
  | some e =>
    by_cases hnf : e.notFound = true
    · simp [hg, IsNotFound, hnf, Errorf]
    · simp [hg, IsNotFound, hnf, Errorf]
  | none =>
    rcases hd : s.parentClient.Delete vc st1 with ⟨de, st2⟩
    cases de with
    | some e => simp [hg, hd, IsNotFound, Errorf]
    | none => simp [hg, hd, IsNotFound, Errorf]

/-! ## Lemmas on the map store -/

/-- A claim found under a key is filed under that key. -/
theorem storeLookup_key (st : List VolumeClaim) (key : NamespacedName) (c : VolumeClaim)
    (h : storeLookup st key = some c) : c.key = key := by
  unfold storeLookup at h
  have := List.find?_some h
  simpa using this

/-- After erasing a key nothing is filed under it. -/
theorem storeLookup_erase (st : List VolumeClaim) (key : NamespacedName) :
    storeLookup (storeErase st key) key = none := by
  unfold storeLookup storeErase
  rw [List.find?_eq_none]
  intro x hx
  rw [List.mem_filter] at hx
  simpa using hx.2

/-- `DeleteVolume` on the map store: a claim filed under the key is looked up
and erased, an absent one is looked up only; neither case is an error. -/
theorem DeleteVolume_mapService (st : List VolumeClaim) (req : DeleteVolumeRequest) :
    (DeleteVolume mapService req st).err = none ∧
    (DeleteVolume mapService req st).state =
      storeErase st ⟨"onmetal-csi", req.VolumeId ++ "-claim"⟩ := by
  unfold DeleteVolume
  dsimp only [mapService, mapClient]
  cases hl : storeLookup st ⟨"onmetal-csi", req.VolumeId ++ "-claim"⟩ with
  | none =>
    simp only [hl, IsNotFound, notFoundError]
    refine ⟨by simp, ?_⟩
    simp only [not_true_eq_false, if_false]
    unfold storeLookup at hl
    rw [List.find?_eq_none] at hl
    unfold storeErase
    symm
    rw [List.filter_eq_self]
    intro x hx
    simpa using hl x hx
  | some c =>
    have hk := storeLookup_key st _ c hl
    simp [hl, hk]

/-- C11: over a store kept as a map from namespaced names to claims,
`DeleteVolume` is idempotent: for every store state and volume id, if a first
call succeeds, a second call with the same id on the resulting state succeeds as
well and leaves that state unchanged. -/
theorem C11_delete_idempotent (st : List VolumeClaim) (req : DeleteVolumeRequest)
    (_hfirst : (DeleteVolume mapService req st).err = none) :
    (DeleteVolume mapService req (DeleteVolume mapService req st).state).err = none ∧
    (DeleteVolume mapService req (DeleteVolume mapService req st).state).state =
      (DeleteVolume mapService req st).state := by
  have h1 := DeleteVolume_mapService st req
  have h2 := DeleteVolume_mapService (DeleteVolume mapService req st).state req
  refine ⟨h2.1, ?_⟩
  rw [h2.2, h1.2]
  unfold storeErase
  rw [List.filter_filter]
  simp

/-- C11 on a store that holds the claim of the volume `volume-to-delete`. -/
theorem C11_delete_idempotent_witness :
    (DeleteVolume mapService ⟨"volume-to-delete"⟩
      (DeleteVolume mapService ⟨"volume-to-delete"⟩ [storedClaim]).state).err = none ∧
    (DeleteVolume mapService ⟨"volume-to-delete"⟩
      (DeleteVolume mapService ⟨"volume-to-delete"⟩ [storedClaim]).state).state =
      (DeleteVolume mapService ⟨"volume-to-delete"⟩ [storedClaim]).state :=
  C11_delete_idempotent [storedClaim] ⟨"volume-to-delete"⟩ (by decide)

/-- Outcome of `CreateVolume` on a valid size whose apply succeeded: the error,
and the calls issued, by the phase seen after the apply and on the re-read. -/
theorem CreateVolume_after_apply {σ : Type} (s : service σ) (req : CreateVolumeRequest) (st : σ)
    (hvalid : (validateVolumeSize req.CapacityRange).2.2 = none)
    (happly : (applyResult s req st).1 = none) :
    ((CreateVolume s req st).err = none ↔
      ((applyResult s req st).2.1.Phase = VolumeClaimBound ∨
        (((rereadResult s req st).1 = none ∨ IsNotFound (rereadResult s req st).1 = true) ∧
          (rereadResult s req st).2.1.Phase = VolumeClaimBound))) ∧
    (∀ e, (CreateVolume s req st).err = some e → e.code = Code.Internal) ∧
    (CreateVolume s req st).calls =
      (if (applyResult s req st).2.1.Phase = VolumeClaimBound then
        [ClientCall.Patch (appliedClaim req) PatchType.Apply volumeClaimFieldOwner]
      else
        [ClientCall.Patch (appliedClaim req) PatchType.Apply volumeClaimFieldOwner,
          ClientCall.Get (rereadKey s req st)]) := by
  unfold rereadResult rereadKey applyResult appliedClaim
  unfold applyResult appliedClaim at happly
  unfold CreateVolume
  dsimp only at happly ⊢
  rcases hv : validateVolumeSize req.CapacityRange with ⟨a, b, c⟩
  rw [hv] at hvalid happly
  simp only at hvalid happly
  subst hvalid
  simp only
  rcases hp : s.parentClient.Patch
      { APIVersion := GroupVersionString, Kind := "VolumeClaim", Namespace := "onmetal-csi",
        Name := req.Name ++ "-claim", Resources := [("storage", b)], Selector := some [],
        StorageClassRef := mapIndex req.Parameters "storage_class_name", Phase := "" }
      PatchType.Apply volumeClaimFieldOwner st with ⟨pe, c1, s1⟩
  rw [hp] at happly
  simp only at happly
  subst happly
  simp only
  by_cases hne : c1.Phase = VolumeClaimBound
  · simp [hne]
  · rcases hg : s.parentClient.Get ⟨c1.Namespace, c1.Name⟩ VolumeClaim.zero s1 with ⟨ge, gv, gs⟩
    cases ge with
    | none =>
      by_cases hgv : gv.Phase = VolumeClaimBound
      · simp [hne, hg, hgv]
      · simp [hne, hg, hgv, Errorf]
    | some e =>
      by_cases hnf : e.notFound = true
      · by_cases hgv : gv.Phase = VolumeClaimBound
        · simp [hne, hg, hgv, hnf, IsNotFound]
        · simp [hne, hg, hgv, hnf, IsNotFound, Errorf]
      · simp [hne, hg, hnf, IsNotFound, Errorf]

/-- C12: for every `CreateVolume` request with a valid size whose claim apply
succeeds, the call succeeds if and only if the claim is Bound right after the
apply, or the single re-read returns without a non-not-found error and shows
the phase Bound; every failure carries the status code internal; and the store
sees the apply followed by one re-read at most (none when the claim is Bound at
once), so the wait is bounded. -/
theorem C12_bounded_wait_for_bound {σ : Type} (s : service σ) (req : CreateVolumeRequest)
    (st : σ) (hvalid : (validateVolumeSize req.CapacityRange).2.2 = none)
    (happly : (applyResult s req st).1 = none) :
    ((CreateVolume s req st).err = none ↔
      ((applyResult s req st).2.1.Phase = VolumeClaimBound ∨
        (((rereadResult s req st).1 = none ∨ IsNotFound (rereadResult s req st).1 = true) ∧
          (rereadResult s req st).2.1.Phase = VolumeClaimBound))) ∧
    (∀ e, (CreateVolume s req st).err = some e → e.code = Code.Internal) ∧
    ((CreateVolume s req st).calls =
        [ClientCall.Patch (appliedClaim req) PatchType.Apply volumeClaimFieldOwner] ∨
      (CreateVolume s req st).calls =
        [ClientCall.Patch (appliedClaim req) PatchType.Apply volumeClaimFieldOwner,
          ClientCall.Get (rereadKey s req st)]) ∧
    ((CreateVolume s req st).calls.filter
      (fun c => match c with | ClientCall.Get _ => true | _ => false)).length ≤ 1 := by
  obtain ⟨h1, h2, h3⟩ := CreateVolume_after_apply s req st hvalid happly
  refine ⟨h1, h2, ?_, ?_⟩
  · rw [h3]
    by_cases hb : (applyResult s req st).2.1.Phase = VolumeClaimBound
    · rw [if_pos hb]; exact Or.inl rfl
    · rw [if_neg hb]; exact Or.inr rfl
  · rw [h3]
    by_cases hb : (applyResult s req st).2.1.Phase = VolumeClaimBound
    · rw [if_pos hb]; simp
    · rw [if_neg hb]; simp

/-- C12 at the request of the controller test against a store that shows the
claim Bound only on the re-read. -/
theorem C12_bounded_wait_for_bound_witness :
    ((CreateVolume lateBoundService testRequest ()).err = none ↔
      ((applyResult lateBoundService testRequest ()).2.1.Phase = VolumeClaimBound ∨
        (((rereadResult lateBoundService testRequest ()).1 = none ∨
            IsNotFound (rereadResult lateBoundService testRequest ()).1 = true) ∧
          (rereadResult lateBoundService testRequest ()).2.1.Phase = VolumeClaimBound))) ∧
    (∀ e, (CreateVolume lateBoundService testRequest ()).err = some e →
      e.code = Code.Internal) ∧
    ((CreateVolume lateBoundService testRequest ()).calls =
        [ClientCall.Patch (appliedClaim testRequest) PatchType.Apply volumeClaimFieldOwner] ∨
      (CreateVolume lateBoundService testRequest ()).calls =
        [ClientCall.Patch (appliedClaim testRequest) PatchType.Apply volumeClaimFieldOwner,
          ClientCall.Get (rereadKey lateBoundService testRequest ())]) ∧
    ((CreateVolume lateBoundService testRequest ()).calls.filter
      (fun c => match c with | ClientCall.Get _ => true | _ => false)).length ≤ 1 :=
  C12_bounded_wait_for_bound lateBoundService testRequest () (by decide) (by decide)

/-- C13, the code on every input: whatever the store holds (no volume, or a
volume still Pending), `ControllerPublishVolume` returns no error and a publish
context with the node id and the volume id, without consulting the store. -/
theorem C13_publish_never_fails {σ : Type} (s : service σ)
    (req : ControllerPublishVolumeRequest) (st : σ) :
    (ControllerPublishVolume s req st).err = none ∧
    (ControllerPublishVolume s req st).resp.PublishContext =
      [("node_id", req.NodeId), ("volume_id", req.VolumeId)] ∧
    (ControllerPublishVolume s req st).calls = [] ∧
    (ControllerPublishVolume s req st).state = st :=
  ⟨rfl, rfl, rfl, rfl⟩

/-- C14, the code at the test's request: whatever the store holds, the publish
context for volume `volume` on node `node` has the two entries node_id and
volume_id only; it has no device name entry, and no entry holds the device
path "/dev/disk/by-id/virtio-oda-bar". -/
theorem C14_publish_context_has_no_device {σ : Type} (s : service σ) (st : σ) :
    (ControllerPublishVolume s testPublishRequest st).err = none ∧
    (ControllerPublishVolume s testPublishRequest st).resp.PublishContext =
      [("node_id", "node"), ("volume_id", "volume")] ∧
    (ControllerPublishVolume s testPublishRequest st).resp.PublishContext.lookup "device_name"
      = none ∧
    ∀ kv ∈ (ControllerPublishVolume s testPublishRequest st).resp.PublishContext,
      kv.2 ≠ "/dev/disk/by-id/virtio-oda-bar" := by
  refine ⟨rfl, rfl, rfl, ?_⟩
  intro kv hkv
  have hctx : (ControllerPublishVolume s testPublishRequest st).resp.PublishContext =
      [("node_id", "node"), ("volume_id", "volume")] := rfl
  rw [hctx] at hkv
  simp only [List.mem_cons, List.mem_singleton, List.not_mem_nil, or_false] at hkv
  rcases hkv with h | h <;> subst h <;> decide

/-- C15, the code on every input: `ControllerUnpublishVolume` returns success
and leaves the store exactly as it was, without any call to it; on the store of
the controller test, where the machine `node` declares an attachment of the
volume `volume`, that entry is still declared after the call. -/
theorem C15_unpublish_changes_nothing {σ : Type} (s : service σ)
    (req : ControllerUnpublishVolumeRequest) (st : σ) :
    (ControllerUnpublishVolume s req st).err = none ∧
    (ControllerUnpublishVolume s req st).state = st ∧
    (ControllerUnpublishVolume s req st).calls = [] ∧
    (ControllerUnpublishVolume ⟨inertClient (List Machine), UTC⟩ ⟨"volume", "node"⟩
        [testMachine]).err = none ∧
    ((ControllerUnpublishVolume ⟨inertClient (List Machine), UTC⟩ ⟨"volume", "node"⟩
        [testMachine]).state.map
      (fun m => (m.Name, m.Volumes.map MachineVolume.VolumeRef))) = [("node", ["volume"])] :=
  ⟨rfl, rfl, rfl, rfl, by decide⟩

/-- On a valid size the error of `CreateVolume` is a function of the volume name
and of what the store answers to the apply and to the re-read. -/
theorem CreateVolume_err_eq {σ : Type} (s : service σ) (req : CreateVolumeRequest) (st : σ)
    (hvalid : (validateVolumeSize req.CapacityRange).2.2 = none) :
    (CreateVolume s req st).err =
      outcomeOf req.Name (applyResult s req st).1 (applyResult s req st).2.1
        (rereadResult s req st).1 (rereadResult s req st).2.1 := by
  unfold rereadResult rereadKey applyResult appliedClaim outcomeOf
  unfold CreateVolume
  dsimp only
  rcases hv : validateVolumeSize req.CapacityRange with ⟨a, b, c⟩
  rw [hv] at hvalid
  simp only at hvalid
  subst hvalid
  simp only
  rcases hp : s.parentClient.Patch
      { APIVersion := GroupVersionString, Kind := "VolumeClaim", Namespace := "onmetal-csi",
        Name := req.Name ++ "-claim", Resources := [("storage", b)], Selector := some [],
        StorageClassRef := mapIndex req.Parameters "storage_class_name", Phase := "" }
      PatchType.Apply volumeClaimFieldOwner st with ⟨pe, c1, s1⟩
  cases pe with
  | some e => rfl
  | none =>
    simp only
    by_cases hne : c1.Phase = VolumeClaimBound
    · simp [hne]
    · rcases hg : s.parentClient.Get ⟨c1.Namespace, c1.Name⟩ VolumeClaim.zero s1 with ⟨ge, gv, gs⟩
      cases ge with
      | none =>
        by_cases hgv : gv.Phase = VolumeClaimBound
        · simp [hne, hg, hgv]
        · simp [hne, hg, hgv]
      | some e =>
        by_cases hnf : e.notFound = true
        · by_cases hgv : gv.Phase = VolumeClaimBound
          · simp [hne, hg, hgv, hnf, IsNotFound]
          · simp [hne, hg, hgv, hnf, IsNotFound]
        · simp [hne, hg, hnf, IsNotFound]

/-- Every apply that `CreateVolume` issues carries the request's claim, as an
apply patch under the field owner of the service. -/
theorem CreateVolume_patch_mem {σ : Type} (s : service σ) (req : CreateVolumeRequest) (st : σ)
    (c : VolumeClaim) (p : PatchType) (owner : String)
    (h : ClientCall.Patch c p owner ∈ (CreateVolume s req st).calls) :
    c = appliedClaim req ∧ p = PatchType.Apply ∧ owner = volumeClaimFieldOwner := by
  have hvalid : (validateVolumeSize req.CapacityRange).2.2 = none := by
    cases hv : (validateVolumeSize req.CapacityRange).2.2 with
    | none => rfl
    | some e =>
      rw [CreateVolume_rejected s req st e hv] at h
      simp at h
  rcases CreateVolume_calls_shape s req st hvalid with hc | ⟨key, hc⟩
  · rw [hc] at h
    simp only [List.mem_singleton, ClientCall.Patch.injEq] at h
    exact h
  · rw [hc] at h
    simp only [List.mem_cons, ClientCall.Patch.injEq, List.mem_singleton, reduceCtorEq,
      or_false, List.not_mem_nil] at h
    exact h

/-- What one `CreateVolume` call does on a valid size: its first store call is
the apply of the request's claim, it issues that one apply and no other, its
response carries the request's descriptor, and its error is `outcomeOf` the
store's answers. -/
theorem CreateVolume_valid_summary {σ : Type} (s : service σ) (req : CreateVolumeRequest)
    (st : σ) (hvalid : (validateVolumeSize req.CapacityRange).2.2 = none) :
    (CreateVolume s req st).calls.head? =
      some (ClientCall.Patch (appliedClaim req) PatchType.Apply volumeClaimFieldOwner) ∧
    ((CreateVolume s req st).calls.filter ClientCall.isPatch).length = 1 ∧
    (CreateVolume s req st).resp.Volume = some (getCsiVolume s (requestedVolume req) req) ∧
    (CreateVolume s req st).err =
      outcomeOf req.Name (applyResult s req st).1 (applyResult s req st).2.1
        (rereadResult s req st).1 (rereadResult s req st).2.1 := by
  refine ⟨CreateVolume_calls_head s req st hvalid, ?_, ?_, CreateVolume_err_eq s req st hvalid⟩
  · rcases CreateVolume_calls_shape s req st hvalid with hc | ⟨key, hc⟩
    · rw [hc]; rfl
    · rw [hc]; rfl
  · rw [CreateVolume_resp s req st hvalid]

/-- C16: `CreateVolume` is safe to repeat. Take two calls with the same request,
on store states st1 and st2 that answer the apply and the re-read alike.
(1) Any applies found in the two call logs carry one and the same claim
(namespace, name, requested storage quantity and storage class fixed by the
request) under the fixed field owner "storage.onmetal.de/volumeclaim".
(2) On a valid size each call does issue that apply, as its first store call
and exactly once, each returns the descriptor of the request (VolumeId the
name, CapacityBytes the validated size), and the error of each is the same
function `outcomeOf` of the volume name and the store's answers.
(3) On a rejected size each call fails with the validator's error as an
internal status, returns no volume and issues no store call.
(4) The two calls return the same response and the same error. -/
theorem C16_create_safe_to_repeat {σ : Type} (s : service σ) (req : CreateVolumeRequest)
    (st1 st2 : σ) (hsame : sameResponses s req st1 st2) :
    (∀ c1 p1 o1 c2 p2 o2,
      ClientCall.Patch c1 p1 o1 ∈ (CreateVolume s req st1).calls →
      ClientCall.Patch c2 p2 o2 ∈ (CreateVolume s req st2).calls →
      c1 = c2 ∧ p1 = PatchType.Apply ∧ p2 = PatchType.Apply ∧
      o1 = "storage.onmetal.de/volumeclaim" ∧ o2 = "storage.onmetal.de/volumeclaim" ∧
      c1.Namespace = "onmetal-csi" ∧ c1.Name = req.Name ++ "-claim" ∧
      c1.Resources = [("storage", (validateVolumeSize req.CapacityRange).2.1)] ∧
      c1.StorageClassRef = mapIndex req.Parameters "storage_class_name") ∧
    ((validateVolumeSize req.CapacityRange).2.2 = none →
      (∃ c : VolumeClaim,
        c.Namespace = "onmetal-csi" ∧ c.Name = req.Name ++ "-claim" ∧
        c.Resources = [("storage", (validateVolumeSize req.CapacityRange).2.1)] ∧
        c.StorageClassRef = mapIndex req.Parameters "storage_class_name" ∧
        (CreateVolume s req st1).calls.head? =
          some (ClientCall.Patch c PatchType.Apply "storage.onmetal.de/volumeclaim") ∧
        (CreateVolume s req st2).calls.head? =
          some (ClientCall.Patch c PatchType.Apply "storage.onmetal.de/volumeclaim")) ∧
      ((CreateVolume s req st1).calls.filter ClientCall.isPatch).length = 1 ∧
      ((CreateVolume s req st2).calls.filter ClientCall.isPatch).length = 1 ∧
      (∃ v : CsiVolume,
        (CreateVolume s req st1).resp.Volume = some v ∧
        (CreateVolume s req st2).resp.Volume = some v ∧
        v.VolumeId = req.Name ∧
        v.CapacityBytes = (validateVolumeSize req.CapacityRange).1) ∧
      (CreateVolume s req st1).err =
        outcomeOf req.Name (applyResult s req st1).1 (applyResult s req st1).2.1
          (rereadResult s req st1).1 (rereadResult s req st1).2.1 ∧
      (CreateVolume s req st2).err =
        outcomeOf req.Name (applyResult s req st2).1 (applyResult s req st2).2.1
          (rereadResult s req st2).1 (rereadResult s req st2).2.1) ∧
    (∀ e, (validateVolumeSize req.CapacityRange).2.2 = some e →
      CreateVolume s req st1 = ⟨⟨none⟩, some ⟨Code.Internal, e, []⟩, st1, []⟩ ∧
      CreateVolume s req st2 = ⟨⟨none⟩, some ⟨Code.Internal, e, []⟩, st2, []⟩) ∧
    (CreateVolume s req st1).resp = (CreateVolume s req st2).resp ∧
    (CreateVolume s req st1).err = (CreateVolume s req st2).err := by
  refine ⟨?_, ?_, ?_, ?_⟩
  · intro c1 p1 o1 c2 p2 o2 h1 h2
    obtain ⟨hc1, hp1, ho1⟩ := CreateVolume_patch_mem s req st1 c1 p1 o1 h1
    obtain ⟨hc2, hp2, ho2⟩ := CreateVolume_patch_mem s req st2 c2 p2 o2 h2
    subst hc1 hc2 hp1 hp2 ho1 ho2
    exact ⟨rfl, rfl, rfl, rfl, rfl, rfl, rfl, rfl, rfl⟩
  · intro hvalid
    obtain ⟨a1, a2, a3, a4⟩ := CreateVolume_valid_summary s req st1 hvalid
    obtain ⟨b1, b2, b3, b4⟩ := CreateVolume_valid_summary s req st2 hvalid
    exact ⟨⟨appliedClaim req, rfl, rfl, rfl, rfl, a1, b1⟩, a2, b2,
      ⟨getCsiVolume s (requestedVolume req) req, a3, b3, rfl, rfl⟩, a4, b4⟩
  · intro e he
    exact ⟨CreateVolume_rejected s req st1 e he, CreateVolume_rejected s req st2 e he⟩
  · cases hv : (validateVolumeSize req.CapacityRange).2.2 with
    | some e =>
      rw [CreateVolume_rejected s req st1 e hv, CreateVolume_rejected s req st2 e hv]
      exact ⟨rfl, rfl⟩
    | none =>
      obtain ⟨h1, h2, h3, h4⟩ := hsame
      rw [CreateVolume_resp s req st1 hv, CreateVolume_resp s req st2 hv,
        CreateVolume_err_eq s req st1 hv, CreateVolume_err_eq s req st2 hv, h1, h2, h3, h4]
      exact ⟨rfl, rfl⟩

/-- C16 on the map store with two successful calls: the test's request on a
store that already holds its claim Bound, and again on the store that first
call left. The store answers both calls alike, both succeed, and the second call
leaves the store as the first did. -/
theorem C16_create_safe_to_repeat_witness :
    sameResponses mapService testRequest boundTestStore repeatStore ∧
    (CreateVolume mapService testRequest boundTestStore).err = none ∧
    (CreateVolume mapService testRequest repeatStore).err = none ∧
    (CreateVolume mapService testRequest repeatStore).state = repeatStore ∧
    ((∀ c1 p1 o1 c2 p2 o2,
      ClientCall.Patch c1 p1 o1 ∈ (CreateVolume mapService testRequest boundTestStore).calls →
      ClientCall.Patch c2 p2 o2 ∈ (CreateVolume mapService testRequest repeatStore).calls →
      c1 = c2 ∧ p1 = PatchType.Apply ∧ p2 = PatchType.Apply ∧
      o1 = "storage.onmetal.de/volumeclaim" ∧ o2 = "storage.onmetal.de/volumeclaim" ∧
      c1.Namespace = "onmetal-csi" ∧ c1.Name = testRequest.Name ++ "-claim" ∧
      c1.Resources = [("storage", (validateVolumeSize testRequest.CapacityRange).2.1)] ∧
      c1.StorageClassRef = mapIndex testRequest.Parameters "storage_class_name") ∧
    ((validateVolumeSize testRequest.CapacityRange).2.2 = none →
      (∃ c : VolumeClaim,
        c.Namespace = "onmetal-csi" ∧ c.Name = testRequest.Name ++ "-claim" ∧
        c.Resources = [("storage", (validateVolumeSize testRequest.CapacityRange).2.1)] ∧
        c.StorageClassRef = mapIndex testRequest.Parameters "storage_class_name" ∧
        (CreateVolume mapService testRequest boundTestStore).calls.head? =
          some (ClientCall.Patch c PatchType.Apply "storage.onmetal.de/volumeclaim") ∧
        (CreateVolume mapService testRequest repeatStore).calls.head? =
          some (ClientCall.Patch c PatchType.Apply "storage.onmetal.de/volumeclaim")) ∧
      ((CreateVolume mapService testRequest boundTestStore).calls.filter
          ClientCall.isPatch).length = 1 ∧
      ((CreateVolume mapService testRequest repeatStore).calls.filter ClientCall.isPatch).length
          = 1 ∧
      (∃ v : CsiVolume,
        (CreateVolume mapService testRequest boundTestStore).resp.Volume = some v ∧
        (CreateVolume mapService testRequest repeatStore).resp.Volume = some v ∧
        v.VolumeId = testRequest.Name ∧
        v.CapacityBytes = (validateVolumeSize testRequest.CapacityRange).1) ∧
      (CreateVolume mapService testRequest boundTestStore).err =
        outcomeOf testRequest.Name (applyResult mapService testRequest boundTestStore).1
            (applyResult mapService testRequest boundTestStore).2.1
          (rereadResult mapService testRequest boundTestStore).1 (rereadResult mapService
              testRequest boundTestStore).2.1 ∧
      (CreateVolume mapService testRequest repeatStore).err =
        outcomeOf testRequest.Name (applyResult mapService testRequest repeatStore).1
            (applyResult mapService testRequest repeatStore).2.1
          (rereadResult mapService testRequest repeatStore).1 (rereadResult mapService
              testRequest repeatStore).2.1) ∧
    (∀ e, (validateVolumeSize testRequest.CapacityRange).2.2 = some e →
      CreateVolume mapService testRequest boundTestStore = ⟨⟨none⟩, some ⟨Code.Internal, e, []⟩,
          boundTestStore, []⟩ ∧
      CreateVolume mapService testRequest repeatStore = ⟨⟨none⟩, some ⟨Code.Internal, e, []⟩,
          repeatStore, []⟩) ∧
    (CreateVolume mapService testRequest boundTestStore).resp = (CreateVolume mapService
        testRequest repeatStore).resp ∧
    (CreateVolume mapService testRequest boundTestStore).err = (CreateVolume mapService
        testRequest repeatStore).err) :=
  ⟨by decide, by decide, by decide, by decide,
    C16_create_safe_to_repeat mapService testRequest boundTestStore repeatStore (by decide)⟩

/-- A negative required size or limit is rejected as not valid. -/
theorem validateVolumeSize_negative (R L : Int) (h : R < 0 ∨ L < 0) :
    validateVolumeSize (some ⟨R, L⟩) = (0, "", some "not valid volume size") := by
  unfold validateVolumeSize
  simp only [GetRequiredBytes, GetLimitBytes]
  rw [if_pos h]

/-- C18: `validateVolumeSize` fails exactly on out-of-range input. For all int64
required bytes R and limit bytes L it returns an error if and only if R < 0, or
L < 0, or L is not 0 and the computed size, max(1, floor(R / 2^30)) * 2^30
bytes, exceeds L; in particular it succeeds for every R ≥ 0 with L = 0. -/
theorem C18_validate_fails_iff (R L : Int) (hR : isInt64 R) (_hL : isInt64 L) :
    ((validateVolumeSize (some ⟨R, L⟩)).2.2 ≠ none ↔
      (R < 0 ∨ L < 0 ∨ (L ≠ 0 ∧ max 1 (R / 2 ^ 30) * 2 ^ 30 > L))) ∧
    (0 ≤ R → L = 0 → (validateVolumeSize (some ⟨R, L⟩)).2.2 = none) := by
  have hchar : (validateVolumeSize (some ⟨R, L⟩)).2.2 ≠ none ↔
      (R < 0 ∨ L < 0 ∨ (L ≠ 0 ∧ max 1 (R / 2 ^ 30) * 2 ^ 30 > L)) := by
    by_cases hneg : R < 0 ∨ L < 0
    · rw [validateVolumeSize_negative R L hneg]
      constructor
      · intro _
        rcases hneg with h | h
        · exact Or.inl h
        · exact Or.inr (Or.inl h)
      · intro _
        simp
    · have hR0 : 0 ≤ R := by omega
      have hL0 : 0 ≤ L := by omega
      rw [validateVolumeSize_eq R L hR0 hR.2 hL0]
      by_cases hgt : L ≠ 0 ∧ max 1 (R / 2 ^ 30) * 2 ^ 30 > L
      · rw [if_pos hgt]
        constructor
        · intro _
          exact Or.inr (Or.inr hgt)
        · intro _
          simp
      · rw [if_neg hgt]
        constructor
        · intro h
          exact absurd rfl h
        · intro h
          rcases h with h | h | h
          · omega
          · omega
          · exact absurd h hgt
  refine ⟨hchar, ?_⟩
  intro h0 hl
  by_contra hne
  rcases hchar.mp hne with h | h | h
  · omega
  · omega
  · exact h.1 hl

/-- C18 at a required size of 3 GiB with a limit of 2 GiB. -/
theorem C18_validate_fails_iff_witness :
    ((validateVolumeSize (some ⟨3 * 2 ^ 30, 2 ^ 31⟩)).2.2 ≠ none ↔
      ((3 * 2 ^ 30 : Int) < 0 ∨ (2 ^ 31 : Int) < 0 ∨
        ((2 ^ 31 : Int) ≠ 0 ∧ max 1 (3 * 2 ^ 30 / 2 ^ 30) * 2 ^ 30 > (2 ^ 31 : Int)))) ∧
    ((0 : Int) ≤ 3 * 2 ^ 30 → (2 ^ 31 : Int) = 0 →
      (validateVolumeSize (some ⟨3 * 2 ^ 30, 2 ^ 31⟩)).2.2 = none) :=
  C18_validate_fails_iff (3 * 2 ^ 30) (2 ^ 31) (by decide) (by decide)

/-- C19: for every capacity range (of int64 values) that `validateVolumeSize`
accepts, the returned byte size is k * 2^30 for an integer k ≥ 1 and the
returned quantity string is the decimal numeral of that same k followed by
"Gi"; `CreateVolume` puts that byte size in the CapacityBytes of its response
volume, and that quantity in the storage request of the claim it applies. -/
theorem C19_size_and_quantity_agree (cr : Option CapacityRange)
    (hR : isInt64 (GetRequiredBytes cr)) (hL : isInt64 (GetLimitBytes cr))
    (hacc : (validateVolumeSize cr).2.2 = none) :
    ∃ k : Nat, 1 ≤ k ∧
      (validateVolumeSize cr).1 = (k : Int) * 2 ^ 30 ∧
      (validateVolumeSize cr).2.1 = Nat.repr k ++ "Gi" ∧
      ∀ (σ : Type) (s : service σ) (req : CreateVolumeRequest) (st : σ),
        req.CapacityRange = cr →
        (CreateVolume s req st).resp.Volume.map CsiVolume.CapacityBytes =
          some ((k : Int) * 2 ^ 30) ∧
        ∃ c, (CreateVolume s req st).calls.head? =
            some (ClientCall.Patch c PatchType.Apply volumeClaimFieldOwner) ∧
          c.Resources = [("storage", Nat.repr k ++ "Gi")] := by
  have hnn : ¬ (GetRequiredBytes cr < 0 ∨ GetLimitBytes cr < 0) := by
    intro hneg
    rw [validateVolumeSize_getters, validateVolumeSize_negative _ _ hneg] at hacc
    simp at hacc
  have hR0 : 0 ≤ GetRequiredBytes cr := by omega
  have hL0 : 0 ≤ GetLimitBytes cr := by omega
  have heq := validateVolumeSize_eq (GetRequiredBytes cr) (GetLimitBytes cr) hR0 hR.2 hL0
  rw [← validateVolumeSize_getters] at heq
  by_cases hgt : GetLimitBytes cr ≠ 0 ∧
      max 1 (GetRequiredBytes cr / 2 ^ 30) * 2 ^ 30 > GetLimitBytes cr
  · rw [if_pos hgt] at heq
    rw [heq] at hacc
    simp at hacc
  · rw [if_neg hgt] at heq
    have hk1 : (1 : Int) ≤ max 1 (GetRequiredBytes cr / 2 ^ 30) := le_max_left _ _
    obtain ⟨k, hk⟩ := Int.eq_ofNat_of_zero_le (le_trans (by norm_num) hk1)
    have hfmt : FormatInt (max 1 (GetRequiredBytes cr / 2 ^ 30)) = Nat.repr k := by
      rw [hk]
      rfl
    refine ⟨k, by omega, by rw [heq, hk], by rw [heq, hfmt], ?_⟩
    intro σ s req st hcr
    subst hcr
    constructor
    · rw [CreateVolume_resp s req st hacc]
      simp only [Option.map, getCsiVolume, requestedVolume, heq, hk]
    · refine ⟨appliedClaim req, CreateVolume_calls_head s req st hacc, ?_⟩
      simp only [appliedClaim, heq, hfmt]

/-- C19 at the capacity range of the controller test. -/
theorem C19_size_and_quantity_agree_witness :
    ∃ k : Nat, 1 ≤ k ∧
      (validateVolumeSize testRequest.CapacityRange).1 = (k : Int) * 2 ^ 30 ∧
      (validateVolumeSize testRequest.CapacityRange).2.1 = Nat.repr k ++ "Gi" ∧
      ∀ (σ : Type) (s : service σ) (req : CreateVolumeRequest) (st : σ),
        req.CapacityRange = testRequest.CapacityRange →
        (CreateVolume s req st).resp.Volume.map CsiVolume.CapacityBytes =
          some ((k : Int) * 2 ^ 30) ∧
        ∃ c, (CreateVolume s req st).calls.head? =
            some (ClientCall.Patch c PatchType.Apply volumeClaimFieldOwner) ∧
          c.Resources = [("storage", Nat.repr k ++ "Gi")] :=
  C19_size_and_quantity_agree testRequest.CapacityRange (by decide) (by decide) (by decide)

/-- C20: a topology requirement never turns `CreateVolume` into an error. Two
requests that differ only in their accessibility requirements get, from the
same store in the same state, the same result in full: response, error (so
success or failure, and the code), store state and calls. -/
theorem C20_topology_does_not_change_outcome {σ : Type} (s : service σ)
    (r1 r2 : CreateVolumeRequest) (st : σ)
    (hdiff : { r1 with AccessibilityRequirements := r2.AccessibilityRequirements } = r2) :
    (CreateVolume s r1 st).resp = (CreateVolume s r2 st).resp ∧
    (CreateVolume s r1 st).err = (CreateVolume s r2 st).err ∧
    (CreateVolume s r1 st).err.map Status.code = (CreateVolume s r2 st).err.map Status.code ∧
    ((CreateVolume s r1 st).err = none ↔ (CreateVolume s r2 st).err = none) ∧
    (CreateVolume s r1 st).state = (CreateVolume s r2 st).state ∧
    (CreateVolume s r1 st).calls = (CreateVolume s r2 st).calls := by
  have h : CreateVolume s r2 st = CreateVolume s r1 st := by
    rw [← hdiff]
    rfl
  rw [h]
  exact ⟨rfl, rfl, rfl, Iff.rfl, rfl, rfl⟩

/-- C20 at the test's request for the missing pool `foo` and the same request
without any topology, against a store that binds the claim. -/
theorem C20_topology_does_not_change_outcome_witness :
    (CreateVolume boundService { wrongPoolRequest with AccessibilityRequirements := none } ()).resp
      = (CreateVolume boundService wrongPoolRequest ()).resp ∧
    (CreateVolume boundService { wrongPoolRequest with AccessibilityRequirements := none } ()).err
      = (CreateVolume boundService wrongPoolRequest ()).err ∧
    (CreateVolume boundService
        { wrongPoolRequest with AccessibilityRequirements := none } ()).err.map Status.code =
      (CreateVolume boundService wrongPoolRequest ()).err.map Status.code ∧
    ((CreateVolume boundService
        { wrongPoolRequest with AccessibilityRequirements := none } ()).err = none ↔
      (CreateVolume boundService wrongPoolRequest ()).err = none) ∧
    (CreateVolume boundService
        { wrongPoolRequest with AccessibilityRequirements := none } ()).state =
      (CreateVolume boundService wrongPoolRequest ()).state ∧
    (CreateVolume boundService
        { wrongPoolRequest with AccessibilityRequirements := none } ()).calls =
      (CreateVolume boundService wrongPoolRequest ()).calls :=
  C20_topology_does_not_change_outcome boundService
    { wrongPoolRequest with AccessibilityRequirements := none } wrongPoolRequest () rfl

/-- C17: `NodePublishVolume` validates the volume id, the staging path, the
target path and the capability in that order. For every request the first of
them that is empty (nil for the capability) makes the call fail with the status
invalid-argument and the message "Volume ID is not set", "StagingTargetPath is
not set", "TargetMountPath is not set" or "No volume capabilities provided"
respectively, with no mount or OS operation invoked and the node state
untouched; a request with all four present gets none of these errors. -/
theorem C17_node_publish_validation_order {σ : Type} (ops : NodeOps σ)
    (req : NodePublishVolumeRequest) (st : σ) :
    (req.VolumeId = "" →
      (NodePublishVolume ops req st).err =
        some ⟨Code.InvalidArgument, "Volume ID is not set", []⟩ ∧
      (NodePublishVolume ops req st).calls = [] ∧ (NodePublishVolume ops req st).state = st) ∧
    (req.VolumeId ≠ "" → req.StagingTargetPath = "" →
      (NodePublishVolume ops req st).err =
        some ⟨Code.InvalidArgument, "StagingTargetPath is not set", []⟩ ∧
      (NodePublishVolume ops req st).calls = [] ∧ (NodePublishVolume ops req st).state = st) ∧
    (req.VolumeId ≠ "" → req.StagingTargetPath ≠ "" → req.TargetPath = "" →
      (NodePublishVolume ops req st).err =
        some ⟨Code.InvalidArgument, "TargetMountPath is not set", []⟩ ∧
      (NodePublishVolume ops req st).calls = [] ∧ (NodePublishVolume ops req st).state = st) ∧
    (req.VolumeId ≠ "" → req.StagingTargetPath ≠ "" → req.TargetPath ≠ "" →
        req.VolumeCapability = none →
      (NodePublishVolume ops req st).err =
        some ⟨Code.InvalidArgument, "No volume capabilities provided", []⟩ ∧
      (NodePublishVolume ops req st).calls = [] ∧ (NodePublishVolume ops req st).state = st) ∧
    (req.VolumeId ≠ "" → req.StagingTargetPath ≠ "" → req.TargetPath ≠ "" →
        req.VolumeCapability ≠ none →
      (NodePublishVolume ops req st).calls.head? =
        some (NodeCall.IsLikelyNotMountPoint req.TargetPath) ∧
      ∀ e, (NodePublishVolume ops req st).err = some e → e.code = Code.Internal) := by
  refine ⟨?_, ?_, ?_, ?_, ?_⟩
  · intro h1
    simp [NodePublishVolume, h1, Errorf]
  · intro h1 h2
    simp [NodePublishVolume, h1, h2, Errorf]
  · intro h1 h2 h3
    simp [NodePublishVolume, h1, h2, h3, Errorf]
  · intro h1 h2 h3 h4
    simp [NodePublishVolume, h1, h2, h3, h4, Errorf]
  · intro h1 h2 h3 h4
    cases hc : req.VolumeCapability with
    | none => exact absurd hc h4
    | some cap =>
      unfold NodePublishVolume
      simp only [h1, h2, h3, hc, if_false]
      rcases hchk : ops.IsLikelyNotMountPoint req.TargetPath st with ⟨⟨notMnt, ce⟩, st1⟩
      cases ce with
      | none =>
        cases notMnt with
        | false => simp
        | true =>
          rcases hm : ops.Mount req.StagingTargetPath req.TargetPath cap.FsType
            ("bind" :: (if req.Readonly then "ro" else "rw") :: cap.MountFlags) st1 with ⟨me, st2⟩
          cases me <;> simp [hm, Errorf]
      | some e =>
        by_cases hne : ops.IsNotExist e = true
        · rcases hmk : ops.MkdirAll req.TargetPath 0o750 st1 with ⟨ke, st2⟩
          cases ke with
          | some e2 => simp [hne, hmk, Errorf]
          | none =>
            rcases hm : ops.Mount req.StagingTargetPath req.TargetPath cap.FsType
              ("bind" :: (if req.Readonly then "ro" else "rw") :: cap.MountFlags) st2 with ⟨me, st3⟩
            cases me <;> simp [hne, hmk, hm, Errorf]
        · simp [hne, Errorf]

/-! ## Lemmas on decimal numerals -/

/-- The character of a digit below ten is a decimal digit of that value, and is
not '0' unless the digit is zero. -/
theorem digitChar_spec (m : Nat) (h : m < 10) :
    (Nat.digitChar m).isDigit = true ∧ digitValue (Nat.digitChar m) = m ∧
      (0 < m → Nat.digitChar m ≠ '0') := by
  interval_cases m <;> decide

/-- Reading a numeral with one more digit at its end. -/
theorem decimalValue_append_singleton (l : List Char) (d : Char) :
    decimalValue (l ++ [d]) = 10 * decimalValue l + digitValue d := by
  unfold decimalValue
  rw [List.foldl_append]
  rfl

/-- With enough fuel the digit loop puts in front of its accumulator a non-empty
run of decimal digits that reads back as the number, without a leading zero
for a positive number. -/
theorem toDigitsCore_spec (fuel : Nat) : ∀ (n : Nat) (ds : List Char), n < fuel →
    ∃ l, Nat.toDigitsCore 10 fuel n ds = l ++ ds ∧ l ≠ [] ∧
      (∀ c ∈ l, c.isDigit = true) ∧ decimalValue l = n ∧
      (0 < n → l.head? ≠ some '0') := by
  induction fuel with
  | zero => intro n ds h; omega
  | succ fuel ih =>
    intro n ds hn
    have hd := digitChar_spec (n % 10) (Nat.mod_lt n (by norm_num))
    unfold Nat.toDigitsCore
    by_cases hq : n / 10 = 0
    · simp only [hq, if_true]
      have hlt : n < 10 := by omega
      have hmod : n % 10 = n := Nat.mod_eq_of_lt hlt
      refine ⟨[Nat.digitChar (n % 10)], rfl, by simp, ?_, ?_, ?_⟩
      · intro c hc
        rw [List.mem_singleton] at hc
        rw [hc]; exact hd.1
      · have : decimalValue [Nat.digitChar (n % 10)] = digitValue (Nat.digitChar (n % 10)) := by
          simp [decimalValue]
        rw [this, hd.2.1, hmod]
      · intro hpos
        have := hd.2.2 (by omega)
        simpa using this
    · simp only [hq, if_false]
      have hlt : n / 10 < fuel := by omega
      obtain ⟨l, hl, hne, hdig, hval, hhead⟩ := ih (n / 10) (Nat.digitChar (n % 10) :: ds) hlt
      refine ⟨l ++ [Nat.digitChar (n % 10)], ?_, by simp, ?_, ?_, ?_⟩
      · rw [hl]; simp
      · intro c hc
        rw [List.mem_append, List.mem_singleton] at hc
        rcases hc with hc | hc
        · exact hdig c hc
        · rw [hc]; exact hd.1
      · rw [decimalValue_append_singleton, hval, hd.2.1]
        omega
      · intro _
        have h1 := hhead (by omega)
        cases l with
        | nil => exact absurd rfl hne
        | cons a t => simpa using h1

/-- The decimal numeral of a natural number is a non-empty string of decimal
digits that reads back as the number, without a leading zero for a positive
number. -/
theorem repr_spec (k : Nat) :
    ∃ l, Nat.repr k = String.mk l ∧ l ≠ [] ∧ (∀ c ∈ l, c.isDigit = true) ∧
      decimalValue l = k ∧ (0 < k → l.head? ≠ some '0') := by
  obtain ⟨l, hl, h⟩ := toDigitsCore_spec (k + 1) k [] (Nat.lt_succ_self k)
  refine ⟨l, ?_, h⟩
  unfold Nat.repr Nat.toDigits
  rw [hl, List.append_nil]
  rfl

/-- C21: for all int64 required and limit bytes (an absent range included),
whenever `validateVolumeSize` returns no error its string result is a non-empty
run of decimal digits, without a leading zero, that reads as a positive integer
k, followed by "Gi"; its byte result equals k * 2^30, is at most max(R, 2^30),
and both the product and the result fit in int64, so the multiplication does not
wrap. The claim `CreateVolume` then builds hands exactly that string to the
quantity parser. -/
theorem C21_quantity_wellformed_no_overflow (cr : Option CapacityRange)
    (hR : isInt64 (GetRequiredBytes cr)) (_hL : isInt64 (GetLimitBytes cr))
    (hok : (validateVolumeSize cr).2.2 = none) :
    ∃ (k : Nat) (digits : List Char), 1 ≤ k ∧
      (validateVolumeSize cr).2.1 = String.mk digits ++ "Gi" ∧
      digits ≠ [] ∧ (∀ c ∈ digits, c.isDigit = true) ∧ digits.head? ≠ some '0' ∧
      decimalValue digits = k ∧
      (validateVolumeSize cr).1 = (k : Int) * 2 ^ 30 ∧
      (validateVolumeSize cr).1 ≤ max (GetRequiredBytes cr) (2 ^ 30) ∧
      isInt64 ((k : Int) * 2 ^ 30) ∧ isInt64 (validateVolumeSize cr).1 ∧
      ∀ (σ : Type) (s : service σ) (req : CreateVolumeRequest) (st : σ),
        req.CapacityRange = cr →
        ∀ c p o, ClientCall.Patch c p o ∈ (CreateVolume s req st).calls →
          c.Resources = [("storage", String.mk digits ++ "Gi")] := by
  have hnn : ¬ (GetRequiredBytes cr < 0 ∨ GetLimitBytes cr < 0) := by
    intro hneg
    rw [validateVolumeSize_getters, validateVolumeSize_negative _ _ hneg] at hok
    simp at hok
  have hR0 : 0 ≤ GetRequiredBytes cr := by omega
  have hL0 : 0 ≤ GetLimitBytes cr := by omega
  have heq := validateVolumeSize_eq (GetRequiredBytes cr) (GetLimitBytes cr) hR0 hR.2 hL0
  rw [← validateVolumeSize_getters] at heq
  by_cases hgt : GetLimitBytes cr ≠ 0 ∧
      max 1 (GetRequiredBytes cr / 2 ^ 30) * 2 ^ 30 > GetLimitBytes cr
  · rw [if_pos hgt] at heq
    rw [heq] at hok
    simp at hok
  · rw [if_neg hgt] at heq
    have hk1 : (1 : Int) ≤ max 1 (GetRequiredBytes cr / 2 ^ 30) := le_max_left _ _
    obtain ⟨k, hk⟩ := Int.eq_ofNat_of_zero_le (le_trans (by norm_num) hk1)
    have hfmt : FormatInt (max 1 (GetRequiredBytes cr / 2 ^ 30)) = Nat.repr k := by
      rw [hk]
      rfl
    have hkpos : 1 ≤ k := by omega
    obtain ⟨digits, hrepr, hne, hdig, hval, hhead⟩ := repr_spec k
    have hbound : (k : Int) * 2 ^ 30 ≤ max (GetRequiredBytes cr) (2 ^ 30) := by
      have hb := (units_bounds (GetRequiredBytes cr)).2
      have h30 : (2 : Int) ^ 30 = 1073741824 := by norm_num
      rw [h30] at hk ⊢
      rw [hk] at hb
      exact hb
    have hfit : isInt64 ((k : Int) * 2 ^ 30) := by
      unfold isInt64
      have hmax : max (GetRequiredBytes cr) (2 ^ 30) < 2 ^ 63 := max_lt hR.2 (by norm_num)
      constructor
      · have : (0 : Int) ≤ (k : Int) * 2 ^ 30 := by positivity
        omega
      · exact lt_of_le_of_lt hbound hmax
    have hsize : (validateVolumeSize cr).1 = (k : Int) * 2 ^ 30 := by rw [heq, hk]
    have hstr : (validateVolumeSize cr).2.1 = String.mk digits ++ "Gi" := by
      rw [heq, hfmt, hrepr]
    refine ⟨k, digits, hkpos, hstr, hne, hdig, hhead (by omega), hval, hsize, ?_, hfit, ?_, ?_⟩
    · rw [hsize]; exact hbound
    · rw [hsize]; exact hfit
    · intro σ s req st hcr c p o hmem
      subst hcr
      obtain ⟨hc, _, _⟩ := CreateVolume_patch_mem s req st c p o hmem
      rw [hc]
      simp only [appliedClaim, hstr]

/-- C21 at the capacity range of the controller test. -/
theorem C21_quantity_wellformed_no_overflow_witness :
    ∃ (k : Nat) (digits : List Char), 1 ≤ k ∧
      (validateVolumeSize testRequest.CapacityRange).2.1 = String.mk digits ++ "Gi" ∧
      digits ≠ [] ∧ (∀ c ∈ digits, c.isDigit = true) ∧ digits.head? ≠ some '0' ∧
      decimalValue digits = k ∧
      (validateVolumeSize testRequest.CapacityRange).1 = (k : Int) * 2 ^ 30 ∧
      (validateVolumeSize testRequest.CapacityRange).1 ≤
        max (GetRequiredBytes testRequest.CapacityRange) (2 ^ 30) ∧
      isInt64 ((k : Int) * 2 ^ 30) ∧ isInt64 (validateVolumeSize testRequest.CapacityRange).1 ∧
      ∀ (σ : Type) (s : service σ) (req : CreateVolumeRequest) (st : σ),
        req.CapacityRange = testRequest.CapacityRange →
        ∀ c p o, ClientCall.Patch c p o ∈ (CreateVolume s req st).calls →
          c.Resources = [("storage", String.mk digits ++ "Gi")] :=
  C21_quantity_wellformed_no_overflow testRequest.CapacityRange (by decide) (by decide)
    (by decide)

end OnmetalCsi
